import Mathlib

/-!
The call-transfer orchestration of siplink (`main.go`)

A shallow embedding of `main.go`.  Every Go function of the file becomes a Lean
function of the same name.  The SIP engine (`sipgo`), the digest library and
the operating system are not part of the repository; whatever they answer is
read from a `World` record, and whatever the program asks of them is written
to a trace of `Event`s, in program order.

Go strings are modelled by Lean strings and `strings.Contains` by a scan over
the characters; the needles used by the program are ASCII, for which the
byte-wise and the character-wise scan agree.
-/

namespace Siplink

/-! ## Strings -/

/-- Whether the pattern `p` is an initial segment of `s`. -/
def startsWithChars : List Char → List Char → Bool
  | _, [] => true
  | [], _ :: _ => false
  | c :: s, p :: ps => c == p && startsWithChars s ps

/-- Whether the pattern `p` occurs somewhere in `s`. -/
def containsChars : List Char → List Char → Bool
  | [], p => p.isEmpty
  | c :: s, p => startsWithChars (c :: s) p || containsChars s p

/-- Go `strings.Contains(s, substr)`. -/
def Contains (s substr : String) : Bool :=
  containsChars s.toList substr.toList

/-! ## Values of the SIP engine -/

/-- A SIP header, `sip.Header`: a name and a value. -/
structure Header where
  Name : String
  Value : String
  deriving DecidableEq, Repr

/-- The text of a header, `Header.String()`. -/
def Header.String (h : Header) : String :=
  h.Name ++ ": " ++ h.Value

/-- The request methods the program uses, `sip.RequestMethod`. -/
inductive RequestMethod where
  | REGISTER
  | INVITE
  | ACK
  | REFER
  | NOTIFY
  | BYE
  deriving DecidableEq, Repr

/-- The method token, `RequestMethod.String()`. -/
def RequestMethod.String : RequestMethod → String
  | .REGISTER => "REGISTER"
  | .INVITE => "INVITE"
  | .ACK => "ACK"
  | .REFER => "REFER"
  | .NOTIFY => "NOTIFY"
  | .BYE => "BYE"

/-- A SIP address, `sip.Uri` (the fields the program touches). -/
structure Uri where
  User : String
  Host : String
  Port : Nat
  deriving DecidableEq, Repr

/-- The text of an address, `Uri.String()`, for a log line: the user part
when there is one, the host, and the port when it is not zero. -/
def Uri.String (u : Uri) : String :=
  "sip:" ++ (if u.User = "" then "" else u.User ++ "@") ++ u.Host
    ++ (if u.Port = 0 then "" else ":" ++ toString u.Port)

/-- A SIP request, `sip.Request`. -/
structure Request where
  Method : RequestMethod
  Recipient : Uri
  headers : List Header
  transport : String
  body : String
  deriving DecidableEq, Repr

/-- A SIP response, `sip.Response`. `StatusCode` is a Go `int`. -/
structure Response where
  StatusCode : Int
  Reason : String
  headers : List Header
  deriving DecidableEq, Repr

/-- The characters of a header name in lower case, `HeaderToLower`. -/
def headerToLower (name : String) : List Char :=
  name.toList.map Char.toLower

/-- Header lookup of the engine, `GetHeader(name)`: the first header of that
name, compared without regard to case, or `nil`. -/
def getHeader (hs : List Header) (name : String) : Option Header :=
  hs.find? (fun h => headerToLower h.Name == headerToLower name)

/-- Lookup on a request, `req.GetHeader`. -/
def Request.GetHeader (req : Request) (name : String) : Option Header :=
  getHeader req.headers name

/-- Lookup on a response, `res.GetHeader`. -/
def Response.GetHeader (res : Response) (name : String) : Option Header :=
  getHeader res.headers name

/-- Appending a header, `req.AppendHeader`. -/
def Request.AppendHeader (req : Request) (h : Header) : Request :=
  { req with headers := req.headers ++ [h] }

/-- Removing a header, `req.RemoveHeader`: the first header of exactly that
name goes. -/
def Request.RemoveHeader (req : Request) (name : String) : Request :=
  { req with headers := req.headers.eraseP (fun h => h.Name == name) }

/-- A client transaction as `getResponse` sees it: the responses its channel
`Responses()` delivers, in order of arrival and of any class, before its
channel `Done()` fires.  With no response at all, `Done()` is ready first. -/
structure ClientTransaction where
  responses : List Response
  deriving DecidableEq, Repr

/-- The terminal response of a transaction in the sense of the
specification: its first final response, one whose status is 200 or more.
The 1xx responses that precede it are provisional. -/
def ClientTransaction.terminal (tx : ClientTransaction) : Option Response :=
  tx.responses.find? (fun r => decide (200 ≤ r.StatusCode))

/-- An established call, `sipgo.DialogClientSession`: the recipient of its
INVITE and the user part of the INVITE's From address. -/
structure DialogClientSession where
  InviteRecipient : Uri
  FromUser : String
  deriving DecidableEq, Repr

/-! ## Values of the digest library -/

/-- A parsed digest challenge, `digest.Challenge`. -/
structure Challenge where
  Realm : String
  Nonce : String
  Algorithm : String
  OpaqueValue : String
  QOP : List String
  deriving DecidableEq, Repr

/-- The arguments of `digest.Digest`, `digest.Options`. -/
structure Options where
  Method : String
  URI : String
  Username : String
  Password : String
  deriving DecidableEq, Repr

/-- Computed credentials, `digest.Credentials`, by their header text. -/
structure Credentials where
  text : String
  deriving DecidableEq, Repr

/-- The header text of credentials, `cred.String()`. -/
def Credentials.String (c : Credentials) : String :=
  c.text

/-! ## The operating system -/

/-- A network interface address as `getLocalIP` inspects it. -/
structure Addr where
  isIPNet : Bool
  isLoopback : Bool
  isIPv4 : Bool
  text : String
  deriving DecidableEq, Repr

/-- A NOTIFY (or BYE) request delivered to a handler, with the result of the
handler's `tx.Respond`. -/
structure Delivery where
  req : Request
  respondErr : Option String
  deriving DecidableEq, Repr

/-- Everything the environment answers during one run of the program. -/
structure World where
  /-- The argument vector, `os.Args`. -/
  Args : List String
  /-- The environment, `os.Getenv`. -/
  Getenv : String → String
  /-- The error of `sipgo.NewUA`, if any. -/
  NewUA : Option String
  /-- The answer of `net.InterfaceAddrs`. -/
  InterfaceAddrs : Except String (List Addr)
  /-- The error of `sipgo.NewServer`, if any. -/
  NewServer : Option String
  /-- The error of `sipgo.NewClient`, if any. -/
  NewClient : Option String
  /-- The address left in `recipient` by `sip.ParseUri`. -/
  ParseUri : String → Uri
  /-- The answer of `digest.ParseChallenge`. -/
  ParseChallenge : String → Except String Challenge
  /-- The answer of `digest.Digest`. -/
  Digest : Challenge → Options → Except String Credentials
  /-- The answer of `client.TransactionRequest` to the REGISTER request number
  `n` of the run, counted from 0. -/
  registerTx : Nat → Except String ClientTransaction
  /-- The answer of `dialogUA.Invite`. -/
  Invite : Except String DialogClientSession
  /-- The final response to the call setup, `none` when there is none. -/
  answer : Option Response
  /-- The error of `dialog.Ack`, if any. -/
  Ack : Option String
  /-- The answer of `dialog.TransactionRequest` to the REFER. -/
  referTx : Except String ClientTransaction
  /-- The NOTIFY requests handled before the final `select` of `main`
  decides, in order of arrival. -/
  notifies : List Delivery
  /-- Whether that `select` takes its timer case when a signal is pending
  too (the timer fired before the signal was received). -/
  timerFirst : Bool

/-! ## Traces -/

/-- What the program does to the outside, one event per call. -/
inductive Event where
  /-- A line on standard output, `fmt.Println` or `fmt.Printf`. -/
  | print (line : String)
  /-- A line of the logger, `log.Println` or `log.Printf`. -/
  | log (line : String)
  /-- A read of the environment, `os.Getenv`. -/
  | getenv (name : String)
  | newUA
  | newServer
  | onRequest (method : RequestMethod)
  | newClient
  /-- A transaction request, `TransactionRequest(ctx, req)`. -/
  | transactionRequest (req : Request)
  /-- A response taken from a transaction by `getResponse`. -/
  | response (res : Response)
  /-- The deferred `tx.Terminate()`. -/
  | terminate
  | parseChallenge (value : String)
  /-- A digest computation, `digest.Digest(chal, opts)`. -/
  | digest (chal : Challenge) (opts : Options)
  /-- The call `dialogUA.Invite(ctx, recipient, body, header)`. -/
  | invite (recipient : Uri) (body : String) (header : Header)
  | waitAnswer (username password : String)
  | ack
  /-- The call `dialog.Bye(ctx)`. -/
  | bye
  /-- The timer of the final `select`, `time.After(d)`, `d` in nanoseconds. -/
  | timeAfter (d : Nat)
  /-- A receive from the channel `transferComplete`. -/
  | received (v : Bool)
  /-- The `select` with `default` that offers a value to `transferComplete`;
  `sent` tells whether the channel took it. -/
  | trySend (v : Bool) (sent : Bool)
  /-- The reply `tx.Respond(sip.NewResponseFromRequest(req, status, reason, nil))`. -/
  | respond (req : Request) (status : Int) (reason : String)
  | closeDialog
  | closeClient
  | closeServer
  /-- The end of the process with an exit status. -/
  | exit (code : Nat)
  deriving DecidableEq, Repr

/-- How a Go function ends: with a value, with an `error`, or in a panic. -/
inductive Outcome (α : Type) where
  | ok (val : α)
  | error (msg : String)
  | panic (msg : String)
  deriving DecidableEq, Repr

/-- Whether the outcome is a returned `error`. -/
def Outcome.isError {α : Type} : Outcome α → Bool
  | .error _ => true
  | _ => false

/-- Whether the event is a transaction request of the given method. -/
def Event.isRequest (m : RequestMethod) : Event → Bool
  | .transactionRequest req => req.Method == m
  | _ => false

/-- Whether the event is a digest computation. -/
def Event.isDigest : Event → Bool
  | .digest _ _ => true
  | _ => false

/-- Whether the event is the call-setup request. -/
def Event.isInvite : Event → Bool
  | .invite _ _ _ => true
  | _ => false

/-- Whether the event is a teardown request. -/
def Event.isBye : Event → Bool
  | .bye => true
  | _ => false

/-- Whether the event offers a signal to the completion channel. -/
def Event.isTrySend : Event → Bool
  | .trySend _ _ => true
  | _ => false

/-- Whether the event is a reply to an inbound request. -/
def Event.isRespond : Event → Bool
  | .respond _ _ _ => true
  | _ => false

/-- Whether the event arms the timer of the final `select`. -/
def Event.isTimeAfter : Event → Bool
  | .timeAfter _ => true
  | _ => false

/-- The responses `getResponse` handed out, in order. -/
def responsesOf : List Event → List Response
  | [] => []
  | .response res :: t => res :: responsesOf t
  | _ :: t => responsesOf t

/-! ## `getResponse` -/

/-- Go `getResponse`: the `select` over `tx.Done()` and `tx.Responses()`.
It returns the first response the transaction delivers, whatever its class,
and reads no further. -/
def getResponse (tx : ClientTransaction) : Except String Response :=
  match tx.responses with
  | [] => .error "transaction died"
  | res :: _ => .ok res

/-! ## Registration -/

/-- Go `authenticateAndRegister`: answer the digest challenge of a 401 and
send the REGISTER once more.  A missing `WWW-Authenticate` header makes
`GetHeader` return `nil`, and `wwwAuth.Value()` on it panics. -/
def authenticateAndRegister (w : World) (originalReq : Request) (challenge : Response)
    (username password : String) (recipient : Uri) : Outcome Unit × List Event :=
  match challenge.GetHeader "WWW-Authenticate" with
  | none => (.panic "invalid memory address or nil pointer dereference", [])
  | some wwwAuth =>
    match w.ParseChallenge wwwAuth.Value with
    | .error err =>
      (.error ("failed to parse challenge: " ++ err), [.parseChallenge wwwAuth.Value])
    | .ok chal =>
      let opts : Options :=
        { Method := originalReq.Method.String, URI := recipient.Host,
          Username := username, Password := password }
      match w.Digest chal opts with
      | .error err =>
        (.error ("failed to create digest: " ++ err),
          [.parseChallenge wwwAuth.Value, .digest chal opts])
      | .ok cred =>
        let newReq := (originalReq.RemoveHeader "Via").AppendHeader
          ⟨"Authorization", cred.String⟩
        let sent : List Event :=
          [.parseChallenge wwwAuth.Value, .digest chal opts, .transactionRequest newReq]
        match w.registerTx 1 with
        | .error err => (.error ("failed to send authenticated REGISTER: " ++ err), sent)
        | .ok tx =>
          match getResponse tx with
          | .error err =>
            (.error ("failed to get authenticated response: " ++ err), sent ++ [.terminate])
          | .ok res =>
            if res.StatusCode ≠ 200 then
              (.error ("authenticated registration failed: " ++ toString res.StatusCode
                  ++ " " ++ res.Reason),
                sent ++ [.response res, .terminate])
            else
              (.ok (), sent ++ [.response res, .log "✓ Registered successfully", .terminate])

/-- Go `registerToServer`: send a REGISTER and read one response. -/
def registerToServer (w : World) (username password server localIP : String) :
    Outcome Unit × List Event :=
  let recipient := w.ParseUri ("sip:" ++ username ++ "@" ++ server)
  let req : Request :=
    { Method := .REGISTER, Recipient := recipient,
      headers := [⟨"Contact", "<sip:" ++ username ++ "@" ++ localIP ++ ">"⟩],
      transport := "UDP", body := "" }
  let sent : List Event :=
    [.log ("Registering to " ++ server ++ "..."), .transactionRequest req]
  match w.registerTx 0 with
  | .error err => (.error ("failed to send REGISTER: " ++ err), sent)
  | .ok tx =>
    match getResponse tx with
    | .error err => (.error ("failed to get response: " ++ err), sent ++ [.terminate])
    | .ok res =>
      if res.StatusCode = 401 then
        let r := authenticateAndRegister w req res username password recipient
        (r.1, sent ++ [.response res] ++ r.2 ++ [.terminate])
      else if res.StatusCode ≠ 200 then
        (.error ("registration failed: " ++ toString res.StatusCode ++ " " ++ res.Reason),
          sent ++ [.response res, .terminate])
      else
        (.ok (), sent ++ [.response res, .log "✓ Registered successfully", .terminate])

/-! ## Call setup -/

/-- Go `getLocalIP`: the first non-loopback IPv4 interface address, else
the loopback address. -/
def getLocalIP (addrs : Except String (List Addr)) : String :=
  match addrs with
  | .error _ => "127.0.0.1"
  | .ok l =>
    match l.find? (fun a => a.isIPNet && !a.isLoopback && a.isIPv4) with
    | some a => a.text
    | none => "127.0.0.1"

/-- Modelled from the spec: the engine's `WaitAnswer`, which is not part of
the repository.  The call is answered by a 2xx final response; any other
terminal outcome, and the lack of one, is the failure `CallSetupFailed`. -/
def WaitAnswer (final : Option Response) : Except String Unit :=
  match final with
  | none => .error "TransactionFailed"
  | some res =>
    if 200 ≤ res.StatusCode ∧ res.StatusCode < 300 then .ok ()
    else .error ("CallSetupFailed: " ++ toString res.StatusCode ++ " " ++ res.Reason)

/-- The session description `makeCall` offers. -/
def sdpOffer (username localIP : String) : String :=
  "v=0\no=" ++ username ++ " 123456 654321 IN IP4 " ++ localIP
    ++ "\ns=Call Transfer\nc=IN IP4 " ++ localIP
    ++ "\nt=0 0\nm=audio 10000 RTP/AVP 9 0 8\na=rtpmap:9 G722/8000"
    ++ "\na=rtpmap:0 PCMU/8000\na=rtpmap:8 PCMA/8000\na=sendrecv\n"

/-- Go `makeCall`: INVITE, wait for the answer, ACK. -/
def makeCall (w : World) (phoneNumber server username password : String) :
    Outcome DialogClientSession × List Event :=
  let recipient : Uri := { User := phoneNumber, Host := server, Port := 0 }
  let sdp := sdpOffer username (getLocalIP w.InterfaceAddrs)
  let contentTypeHeader : Header := ⟨"Content-Type", "application/sdp"⟩
  let sent : List Event :=
    [.log ("📞 Calling " ++ phoneNumber ++ "..."), .invite recipient sdp contentTypeHeader]
  match w.Invite with
  | .error err => (.error ("failed to send INVITE: " ++ err), sent)
  | .ok dialog =>
    match WaitAnswer w.answer with
    | .error err =>
      (.error ("call failed: " ++ err), sent ++ [.waitAnswer username password])
    | .ok _ =>
      let answered : List Event :=
        sent ++ [.waitAnswer username password, .log "✓ Call connected!", .ack]
      match w.Ack with
      | some err => (.error ("failed to send ACK: " ++ err), answered)
      | none => (.ok dialog, answered)

/-! ## Transfer -/

/-- Go `transferCall`: send the REFER in the dialog and read one response. -/
def transferCall (w : World) (dialog : DialogClientSession) (targetNumber server : String) :
    Outcome Unit × List Event :=
  let referTo := "sip:" ++ targetNumber ++ "@" ++ server
  let recipient := dialog.InviteRecipient
  let refer : Request :=
    { Method := .REFER, Recipient := recipient,
      headers := [⟨"Refer-To", referTo⟩,
        ⟨"Referred-By", "sip:" ++ dialog.FromUser ++ "@" ++ server⟩],
      transport := "", body := "" }
  let sent : List Event :=
    [.log ("📞 Transferring call to " ++ targetNumber ++ "..."),
      .log ("📤 REFER-TO: " ++ referTo),
      .log ("📤 REFER recipient: " ++ recipient.String),
      .transactionRequest refer]
  match w.referTx with
  | .error err => (.error ("failed to send REFER: " ++ err), sent)
  | .ok tx =>
    match getResponse tx with
    | .error err => (.error ("failed to get REFER response: " ++ err), sent ++ [.terminate])
    | .ok res =>
      if 200 ≤ res.StatusCode ∧ res.StatusCode < 300 then
        (.ok (), sent ++ [.response res, .log "✓ Transfer initiated!", .terminate])
      else
        (.error ("transfer failed: " ++ toString res.StatusCode ++ " " ++ res.Reason),
          sent ++ [.response res, .terminate])

/-! ## The completion channel -/

/-- A buffered Go channel of booleans: its capacity and the values pending
in it, oldest first. -/
structure Chan where
  cap : Nat
  buf : List Bool
  deriving DecidableEq, Repr

/-- Go `make(chan bool, n)`. -/
def Chan.make (n : Nat) : Chan :=
  { cap := n, buf := [] }

/-- The number of values pending in the channel, `len(ch)`. -/
def Chan.pending (ch : Chan) : Nat :=
  ch.buf.length

/-- The send of `select { case ch <- v: default: }` with no receiver
waiting: the value is buffered when there is room and dropped otherwise. -/
def Chan.trySend (ch : Chan) (v : Bool) : Chan × Bool :=
  if ch.buf.length < ch.cap then ({ ch with buf := ch.buf ++ [v] }, true)
  else (ch, false)

/-- A receive from the channel when a value is pending, `<-ch`. -/
def Chan.recv (ch : Chan) : Option (Bool × Chan) :=
  match ch.buf with
  | [] => none
  | v :: rest => some (v, { ch with buf := rest })

/-! ## The NOTIFY handler -/

/-- Go `%s` of the `Event` header, which may be `nil`. -/
def fmtHeader : Option Header → String
  | some h => h.String
  | none => "%!s(<nil>)"

/-- The log lines of the if-chain that decodes the transfer status. -/
def decodeLog (body : String) : List Event :=
  if Contains body "SIP/2.0 200" then
    if Contains body "OK" then [.log "✅ Transfer ACCEPTED by server"] else []
  else if Contains body "SIP/2.0 180" then [.log "📞 Target number is RINGING"]
  else if Contains body "SIP/2.0 183" then [.log "📡 Call is making PROGRESS"]
  else if Contains body "SIP/2.0 486" then [.log "❌ Target is BUSY"]
  else if Contains body "SIP/2.0 404" then [.log "❌ Target number NOT FOUND"]
  else if Contains body "SIP/2.0 487" then [.log "❌ Transfer CANCELLED"]
  else if Contains body "SIP/2.0 603" then [.log "❌ Transfer DECLINED"]
  else []

/-- The handler `main` registers for NOTIFY: log, decode the body, offer the
completion signal, reply 200.  It returns the channel it leaves and its
events. -/
def onNotify (transferComplete : Chan) (d : Delivery) : Chan × List Event :=
  let req := d.req
  let event := req.GetHeader "Event"
  let body := req.body
  let logs : List Event :=
    [.log ("📨 Received NOTIFY: " ++ fmtHeader event), .log ("📨 NOTIFY body: " ++ body)]
      ++ decodeLog body
  let signal : Chan × List Event :=
    if (Contains body "SIP/2.0 200" && Contains body "OK") || Contains body "SIP/2.0 180" then
      let r := transferComplete.trySend true
      (r.1, [.trySend true r.2])
    else (transferComplete, [])
  let reply : List Event :=
    match d.respondErr with
    | some err => [.respond req 200 "OK", .log ("Failed to respond to NOTIFY: " ++ err)]
    | none => [.respond req 200 "OK"]
  (signal.1, logs ++ signal.2 ++ reply)

/-- The handler run on a sequence of NOTIFY requests, one after the other. -/
def serveNotifies (ch : Chan) : List Delivery → Chan × List Event
  | [] => (ch, [])
  | d :: rest =>
    let r := onNotify ch d
    let rs := serveNotifies r.1 rest
    (rs.1, r.2 ++ rs.2)

/-- The handler `main` registers for BYE: log and reply 200. -/
def onBye (d : Delivery) : List Event :=
  match d.respondErr with
  | some err =>
    [.log "📨 Received BYE from server - call ended", .respond d.req 200 "OK",
      .log ("Failed to respond to BYE: " ++ err)]
  | none => [.log "📨 Received BYE from server - call ended", .respond d.req 200 "OK"]

/-! ## The lifecycle coordinator -/

/-- Go `time.Second`, in nanoseconds. -/
def Second : Nat := 1000000000

/-- The terminal states of the wait at the end of `main`: `Completed` is the
case `<-transferComplete` of the `select`, `TimedOut` the case
`<-time.After(30 * time.Second)`. -/
inductive Terminal where
  | Completed
  | TimedOut
  deriving DecidableEq, Repr

/-- The `select` at the end of `main`.  It takes the pending signal unless
there is none or the timer is taken first, and sends BYE on the timer. -/
def waitForTransfer (transferComplete : Chan) (timerFirst : Bool) : Terminal × List Event :=
  let entered : List Event :=
    [.log "⏳ Waiting for transfer to complete...", .timeAfter (30 * Second)]
  match transferComplete.recv with
  | some (v, _) =>
    if timerFirst then
      (.TimedOut, entered ++ [.log "⏰ Transfer timeout - sending BYE to cleanup", .bye])
    else
      (.Completed, entered ++ [.received v,
        .log "✅ Transfer successful - calls are now connected!",
        .log "🎉 Application can exit - call continues on server"])
  | none =>
    (.TimedOut, entered ++ [.log "⏰ Transfer timeout - sending BYE to cleanup", .bye])

/-! ## `main` -/

/-- Go `showHelp`: the usage text. -/
def showHelp : List Event :=
  [.print "SIPLink - SIP Call Bridging Tool",
    .print "================================",
    .print "\nUsage: siplink <phone1> <phone2>",
    .print "\nExample: siplink 15551234567 15559876543",
    .print "\nSet environment variables:",
    .print "  export VOIPMS_USER='your_account'",
    .print "  export VOIPMS_PASS='your_password'",
    .print "  export VOIPMS_SERVER='chicago.voip.ms'",
    .print "\nSee https://github.com/ak2k/siplink for more info."]

/-- One run of the program: its exit status, the events of `main` in order,
the events of the NOTIFY handler in order, and the terminal state of the
wait when `main` got that far. -/
structure Run where
  exit : Nat
  trace : List Event
  handlers : List Event
  terminal : Option Terminal
  deriving DecidableEq, Repr

/-- Go `os.Exit(code)` after the events so far; deferred calls do not run. -/
def exitWith (code : Nat) (trace : List Event) : Run :=
  { exit := code, trace := trace ++ [.exit code], handlers := [], terminal := none }

/-- Go `log.Fatal` and `log.Fatalf`: log the line and exit with status 1. -/
def fatal (trace : List Event) (msg : String) : Run :=
  exitWith 1 (trace ++ [.log msg])

/-- A panic that unwinds `main`: the deferred calls run, then the runtime
exits with status 2. -/
def panicked (trace deferred : List Event) : Run :=
  { exit := 2, trace := trace ++ deferred ++ [.exit 2], handlers := [], terminal := none }

/-- The server name `main` uses: `VOIPMS_SERVER`, or the default trunk host. -/
def serverOf (w : World) : String :=
  if w.Getenv "VOIPMS_SERVER" == "" then "chicago.voip.ms" else w.Getenv "VOIPMS_SERVER"

/-- Go `main` from the read of the environment on, with the two numbers
taken from the arguments. -/
def orchestrate (w : World) (phone1 phone2 : String) : Run :=
  let username := w.Getenv "VOIPMS_USER"
  let password := w.Getenv "VOIPMS_PASS"
  let server := serverOf w
  let env : List Event :=
    [.getenv "VOIPMS_USER", .getenv "VOIPMS_PASS", .getenv "VOIPMS_SERVER"]
  if username == "" || password == "" then
    fatal env "Error: Set VOIPMS_USER and VOIPMS_PASS"
  else
    let banner : List Event := env ++
      [.print ("Call Transfer: " ++ phone1 ++ " → " ++ phone2),
        .print ("Server: " ++ username ++ "@" ++ server),
        .print "========================================",
        .newUA]
    match w.NewUA with
    | some err => fatal banner ("Failed to create UA: " ++ err)
    | none =>
      let localIP := getLocalIP w.InterfaceAddrs
      match w.NewServer with
      | some err => fatal (banner ++ [.newServer]) ("Failed to create server: " ++ err)
      | none =>
        let listening : List Event :=
          banner ++ [.newServer, .onRequest .NOTIFY, .onRequest .BYE, .newClient]
        match w.NewClient with
        | some err => fatal listening ("Failed to create client: " ++ err)
        | none =>
          let reg := registerToServer w username password server localIP
          let registered := listening ++ [.log "✓ SIP client initialized"] ++ reg.2
          match reg.1 with
          | .panic _ => panicked registered [.closeClient, .closeServer]
          | .error err => fatal registered ("Failed to register: " ++ err)
          | .ok _ =>
            let call := makeCall w phone1 server username password
            let called := registered ++ call.2
            match call.1 with
            | .panic _ => panicked called [.closeClient, .closeServer]
            | .error err => fatal called ("Failed to make call: " ++ err)
            | .ok dialog =>
              let xfer := transferCall w dialog phone2 server
              let transferred := called ++ xfer.2
              match xfer.1 with
              | .panic _ => panicked transferred [.closeDialog, .closeClient, .closeServer]
              | .error err => fatal transferred ("Failed to transfer call: " ++ err)
              | .ok _ =>
                let served := serveNotifies (Chan.make 1) w.notifies
                let wait := waitForTransfer served.1 w.timerFirst
                { exit := 0,
                  trace := transferred ++ wait.2 ++
                    [.log "\n✓ Call transfer completed successfully!",
                      .closeDialog, .closeClient, .closeServer, .exit 0],
                  handlers := served.2,
                  terminal := some wait.1 }

/-- Go `main`: the help flag, the argument count, then the orchestration. -/
def main (w : World) : Run :=
  if w.Args.length > 1 ∧ (w.Args.getD 1 "" = "--help" ∨ w.Args.getD 1 "" = "-h"
      ∨ w.Args.getD 1 "" = "help") then
    exitWith 0 showHelp
  else if w.Args.length ≠ 3 then
    exitWith 1 showHelp
  else
    orchestrate w (w.Args.getD 1 "") (w.Args.getD 2 "")

/-! ## Reading a trace -/

/-- The outcomes the NOTIFY handler tells apart. -/
inductive TransferStatus where
  | accepted
  | ringing
  | inProgress
  | busy
  | notFound
  | cancelled
  | declined
  deriving DecidableEq, Repr

/-- The outcome a log line of the handler reports, if it reports one. -/
def TransferStatus.ofLog (line : String) : Option TransferStatus :=
  if line = "✅ Transfer ACCEPTED by server" then some .accepted
  else if line = "📞 Target number is RINGING" then some .ringing
  else if line = "📡 Call is making PROGRESS" then some .inProgress
  else if line = "❌ Target is BUSY" then some .busy
  else if line = "❌ Target number NOT FOUND" then some .notFound
  else if line = "❌ Transfer CANCELLED" then some .cancelled
  else if line = "❌ Transfer DECLINED" then some .declined
  else none

/-- The outcome an event reports, if it reports one. -/
def Event.status : Event → Option TransferStatus
  | .log line => TransferStatus.ofLog line
  | _ => none

/-- The outcomes a trace reports, in order. -/
def classified (trace : List Event) : List TransferStatus :=
  trace.filterMap Event.status

/-- Whether the event is a log line. -/
def Event.isLog : Event → Bool
  | .log _ => true
  | _ => false

/-- Whether the event is a signal the completion channel took. -/
def Event.isSent : Event → Bool
  | .trySend _ sent => sent
  | _ => false

/-- Whether the event belongs to a step after the registration: the call
setup, the transfer, the timer of the wait or the teardown. -/
def Event.afterRegister (e : Event) : Bool :=
  e.isInvite || e.isRequest .REFER || e.isTimeAfter || e.isBye

/-- Whether the event belongs to a step after the call setup. -/
def Event.afterCall (e : Event) : Bool :=
  e.isRequest .REFER || e.isTimeAfter || e.isBye

/-- Whether the event belongs to the wait after the transfer. -/
def Event.afterTransfer (e : Event) : Bool :=
  e.isTimeAfter || e.isBye

/-- The classification as the specification words it, by status code:
the 2xx class is accepted, then the six single codes. -/
def claimedStatus (code : Int) : Option TransferStatus :=
  if 200 ≤ code ∧ code < 300 then some .accepted
  else if code = 180 then some .ringing
  else if code = 183 then some .inProgress
  else if code = 486 then some .busy
  else if code = 404 then some .notFound
  else if code = 487 then some .cancelled
  else if code = 603 then some .declined
  else none

/-- The embedded status line of a NOTIFY body, "SIP/2.0 code reason". -/
def statusLine (code : Int) (reason : String) : String :=
  "SIP/2.0 " ++ toString code ++ " " ++ reason

/-! ## Sample runs -/

/-- A NOTIFY for the `refer` event with the given body, answered without error. -/
def notifyOf (body : String) : Delivery :=
  { req :=
      { Method := .NOTIFY, Recipient := ⟨"alice", "192.0.2.10", 5060⟩,
        headers := [⟨"Event", "refer"⟩], transport := "UDP", body := body },
    respondErr := none }

/-- A trunk that accepts everything at once and reports the pickup. -/
def cooperativeWorld : World :=
  { Args := ["siplink", "15551234567", "15559876543"],
    Getenv := fun n =>
      if n = "VOIPMS_USER" then "alice" else if n = "VOIPMS_PASS" then "secret" else "",
    NewUA := none,
    InterfaceAddrs := .ok [⟨true, true, true, "127.0.0.1"⟩, ⟨true, false, true, "192.0.2.10"⟩],
    NewServer := none,
    NewClient := none,
    ParseUri := fun _ => ⟨"alice", "chicago.voip.ms", 0⟩,
    ParseChallenge := fun _ => .ok ⟨"voip.ms", "4f6a", "MD5", "", []⟩,
    Digest := fun _ _ => .ok ⟨"Digest username=alice"⟩,
    registerTx := fun _ => .ok ⟨[⟨200, "OK", []⟩]⟩,
    Invite := .ok ⟨⟨"15551234567", "chicago.voip.ms", 0⟩, "alice"⟩,
    answer := some ⟨200, "OK", []⟩,
    Ack := none,
    referTx := .ok ⟨[⟨202, "Accepted", []⟩]⟩,
    notifies := [notifyOf "SIP/2.0 200 OK"],
    timerFirst := false }

/-- The same trunk, silent after the transfer was accepted. -/
def silentWorld : World :=
  { cooperativeWorld with notifies := [] }

/-- A registrar that challenges the first REGISTER and accepts the second. -/
def challengingWorld : World :=
  { cooperativeWorld with
    registerTx := fun n =>
      if n = 0 then
        .ok ⟨[⟨401, "Unauthorized", [⟨"WWW-Authenticate", "Digest realm=voip.ms"⟩]⟩]⟩
      else .ok ⟨[⟨200, "OK", []⟩]⟩ }

/-- A registrar that challenges the first REGISTER and challenges again. -/
def rechallengingWorld : World :=
  { cooperativeWorld with
    registerTx := fun _ =>
      .ok ⟨[⟨401, "Unauthorized", [⟨"WWW-Authenticate", "Digest realm=voip.ms"⟩]⟩]⟩ }

/-- A registrar that answers 403 to the first REGISTER. -/
def forbiddenWorld : World :=
  { cooperativeWorld with registerTx := fun _ => .ok ⟨[⟨403, "Forbidden", []⟩]⟩ }

/-- A registrar whose 401 carries no challenge header. -/
def bareChallengeWorld : World :=
  { cooperativeWorld with registerTx := fun _ => .ok ⟨[⟨401, "Unauthorized", []⟩]⟩ }

/-- A callee that is busy. -/
def busyWorld : World :=
  { cooperativeWorld with answer := some ⟨486, "Busy Here", []⟩ }

/-- A registrar that sends the provisional 100 before it accepts with 200. -/
def tryingWorld : World :=
  { cooperativeWorld with
    registerTx := fun _ => .ok ⟨[⟨100, "Trying", []⟩, ⟨200, "OK", []⟩]⟩ }

/-- A trunk that sends the provisional 100 before it accepts the transfer
with 202. -/
def tryingTransferWorld : World :=
  { cooperativeWorld with referTx := .ok ⟨[⟨100, "Trying", []⟩, ⟨202, "Accepted", []⟩]⟩ }

/-- A trunk that rejects the transfer. -/
def rejectingWorld : World :=
  { cooperativeWorld with referTx := .ok ⟨[⟨603, "Decline", []⟩]⟩ }


/-- Whether the event, when it is the call setup or the REFER, names the
expected party: the INVITE goes to the user `phone1`, the REFER carries the
header `Refer-To: sip:phone2@server`. -/
def Event.routed (phone1 phone2 server : String) : Event → Bool
  | .invite recipient _ _ => recipient.User == phone1
  | .transactionRequest req =>
    req.Method != .REFER ||
      req.headers.contains ⟨"Refer-To", "sip:" ++ phone2 ++ "@" ++ server⟩
  | _ => true

/-! ## The NOTIFY handler: lemmas -/

theorem decodeLog_logs (body : String) : ∀ e ∈ decodeLog body, ∃ line, e = .log line := by
  intro e he
  unfold decodeLog at he
  repeat' split at he
  all_goals simp at he
  all_goals exact ⟨_, he⟩

theorem countP_logs (p : Event → Bool) (hp : ∀ line, p (.log line) = false) (l : List Event)
    (hl : ∀ e ∈ l, ∃ line, e = .log line) : List.countP p l = 0 := by
  rw [List.countP_eq_zero]
  intro e he
  obtain ⟨line, rfl⟩ := hl e he
  simp [hp]

theorem countP_decodeLog (p : Event → Bool) (hp : ∀ line, p (.log line) = false)
    (body : String) : List.countP p (decodeLog body) = 0 :=
  countP_logs p hp _ (decodeLog_logs body)

theorem filter_decodeLog (p : Event → Bool) (hp : ∀ line, p (.log line) = false)
    (body : String) : List.filter p (decodeLog body) = [] := by
  rw [List.filter_eq_nil_iff]
  intro e he
  obtain ⟨line, rfl⟩ := decodeLog_logs body e he
  simp [hp]

theorem onNotify_chan (ch : Chan) (d : Delivery) :
    (onNotify ch d).1 =
      if (Contains d.req.body "SIP/2.0 200" && Contains d.req.body "OK")
          || Contains d.req.body "SIP/2.0 180" then (ch.trySend true).1 else ch := by
  by_cases h : ((Contains d.req.body "SIP/2.0 200" && Contains d.req.body "OK")
      || Contains d.req.body "SIP/2.0 180") = true
  · simp only [onNotify, h, if_true]
  · simp [onNotify, h]

theorem onNotify_filter_respond (ch : Chan) (d : Delivery) :
    List.filter Event.isRespond (onNotify ch d).2 = [.respond d.req 200 "OK"] := by
  have h := filter_decodeLog Event.isRespond (fun _ => rfl) d.req.body
  unfold onNotify
  simp only [List.filter_append, h]
  split <;> split <;> simp [Event.isRespond, List.filter]

theorem onNotify_countP_respond (ch : Chan) (d : Delivery) :
    List.countP Event.isRespond (onNotify ch d).2 = 1 := by
  rw [List.countP_eq_length_filter, onNotify_filter_respond]
  rfl

theorem onNotify_countP_sent (ch : Chan) (d : Delivery) :
    List.countP Event.isSent (onNotify ch d).2 =
      if ((Contains d.req.body "SIP/2.0 200" && Contains d.req.body "OK")
          || Contains d.req.body "SIP/2.0 180") = true ∧ ch.buf.length < ch.cap then 1 else 0 := by
  have h := countP_decodeLog Event.isSent (fun _ => rfl) d.req.body
  unfold onNotify
  simp only [List.countP_append, h]
  by_cases hc : ((Contains d.req.body "SIP/2.0 200" && Contains d.req.body "OK")
      || Contains d.req.body "SIP/2.0 180") = true
  · by_cases hr : ch.buf.length < ch.cap
    · cases hd : d.respondErr <;>
        simp [hc, hr, Chan.trySend, Event.isSent, List.countP_cons]
    · cases hd : d.respondErr <;>
        simp [hc, hr, Chan.trySend, Event.isSent, List.countP_cons]
  · cases hd : d.respondErr <;> simp [hc, Event.isSent, List.countP_cons]

theorem trySend_cap (ch : Chan) (v : Bool) : (ch.trySend v).1.cap = ch.cap := by
  unfold Chan.trySend
  split <;> rfl

theorem trySend_pending_le (ch : Chan) (v : Bool) (h : ch.pending ≤ ch.cap) :
    (ch.trySend v).1.pending ≤ ch.cap := by
  unfold Chan.trySend Chan.pending at *
  split
  · simp; omega
  · exact h

theorem onNotify_cap (ch : Chan) (d : Delivery) : (onNotify ch d).1.cap = ch.cap := by
  rw [onNotify_chan]
  split
  · exact trySend_cap _ _
  · rfl

theorem onNotify_pending_le (ch : Chan) (d : Delivery) (h : ch.pending ≤ ch.cap) :
    (onNotify ch d).1.pending ≤ ch.cap := by
  rw [onNotify_chan]
  split
  · exact trySend_pending_le _ _ h
  · exact h

theorem serveNotifies_bounded (ds : List Delivery) : ∀ ch : Chan, ch.pending ≤ ch.cap →
    (serveNotifies ch ds).1.cap = ch.cap ∧ (serveNotifies ch ds).1.pending ≤ ch.cap := by
  induction ds with
  | nil => intro ch h; exact ⟨rfl, h⟩
  | cons d rest ih =>
    intro ch h
    have h1 := onNotify_cap ch d
    have h2 := onNotify_pending_le ch d h
    have h3 := ih (onNotify ch d).1 (by rw [h1]; exact h2)
    simp only [serveNotifies]
    rw [h1] at h3
    exact h3

theorem serveNotifies_countP_respond (ds : List Delivery) : ∀ ch : Chan,
    List.countP Event.isRespond (serveNotifies ch ds).2 = ds.length := by
  induction ds with
  | nil => intro ch; rfl
  | cons d rest ih =>
    intro ch
    simp only [serveNotifies, List.countP_append, onNotify_countP_respond, ih, List.length_cons]
    omega

theorem serveNotifies_full (ds : List Delivery) : ∀ ch : Chan, ch.cap = 1 → ch.buf = [true] →
    (serveNotifies ch ds).1 = ch ∧ List.countP Event.isSent (serveNotifies ch ds).2 = 0 := by
  induction ds with
  | nil => intro ch _ _; exact ⟨rfl, rfl⟩
  | cons d rest ih =>
    intro ch hc hb
    have h1 : (onNotify ch d).1 = ch := by
      rw [onNotify_chan]
      split
      · unfold Chan.trySend
        simp [hc, hb]
      · rfl
    have h2 : List.countP Event.isSent (onNotify ch d).2 = 0 := by
      rw [onNotify_countP_sent]
      simp [hc, hb]
    simp only [serveNotifies, List.countP_append]
    rw [h1, h2]
    exact ⟨(ih ch hc hb).1, by rw [(ih ch hc hb).2]⟩

theorem append_ne_of_head (a b c : String) (x y : Char) (as cs : List Char)
    (ha : a.data = x :: as) (hc : c.data = y :: cs) (hxy : x ≠ y) : a ++ b ≠ c := by
  intro h
  have h2 := congrArg String.data h
  rw [String.data_append, ha, hc] at h2
  simp at h2
  exact hxy h2.1

theorem ofLog_of_head (a b : String) (x : Char) (as : List Char) (ha : a.data = x :: as)
    (h1 : x ≠ '✅') (h2 : x ≠ '📞') (h3 : x ≠ '📡') (h4 : x ≠ '❌') :
    TransferStatus.ofLog (a ++ b) = none := by
  have h : ∀ c : String, ∀ y cs, c.data = y :: cs → x ≠ y → a ++ b ≠ c := by
    intro c y cs hc hy
    exact append_ne_of_head a b c x y as cs ha hc hy
  unfold TransferStatus.ofLog
  rw [if_neg (h _ _ _ rfl h1), if_neg (h _ _ _ rfl h2), if_neg (h _ _ _ rfl h3),
    if_neg (h _ _ _ rfl h4), if_neg (h _ _ _ rfl h4), if_neg (h _ _ _ rfl h4),
    if_neg (h _ _ _ rfl h4)]

theorem classified_decodeLog (body : String) :
    classified (decodeLog body) =
      if Contains body "SIP/2.0 200" then
        (if Contains body "OK" then [TransferStatus.accepted] else [])
      else if Contains body "SIP/2.0 180" then [.ringing]
      else if Contains body "SIP/2.0 183" then [.inProgress]
      else if Contains body "SIP/2.0 486" then [.busy]
      else if Contains body "SIP/2.0 404" then [.notFound]
      else if Contains body "SIP/2.0 487" then [.cancelled]
      else if Contains body "SIP/2.0 603" then [.declined]
      else [] := by
  unfold decodeLog classified
  repeat' split
  all_goals rfl

theorem classified_onNotify (ch : Chan) (d : Delivery) :
    classified (onNotify ch d).2 = classified (decodeLog d.req.body) := by
  have hr : ∀ x, TransferStatus.ofLog ("📨 Received NOTIFY: " ++ x) = none := fun x =>
    ofLog_of_head _ x '📨' _ rfl (by decide) (by decide) (by decide) (by decide)
  have hb : ∀ x, TransferStatus.ofLog ("📨 NOTIFY body: " ++ x) = none := fun x =>
    ofLog_of_head _ x '📨' _ rfl (by decide) (by decide) (by decide) (by decide)
  have hf : ∀ x, TransferStatus.ofLog ("Failed to respond to NOTIFY: " ++ x) = none := fun x =>
    ofLog_of_head _ x 'F' _ rfl (by decide) (by decide) (by decide) (by decide)
  unfold onNotify classified
  simp only [List.filterMap_append, List.filterMap_cons, List.filterMap_nil, Event.status,
    hr, hb]
  split <;> split <;> simp [Event.status, hf]

/-! ## The NOTIFY handler: claims -/

/-- C2: for every NOTIFY body (and every state of the channel), the handler
offers the completion signal exactly when the body contains "SIP/2.0 200" and
"OK", or contains "SIP/2.0 180"; a body with neither "SIP/2.0 200" nor
"SIP/2.0 180" causes no offer and leaves the channel as it was. -/
theorem onNotify_signal_iff (ch : Chan) (d : Delivery) :
    ((∃ v sent, Event.trySend v sent ∈ (onNotify ch d).2) ↔
      ((Contains d.req.body "SIP/2.0 200" = true ∧ Contains d.req.body "OK" = true)
        ∨ Contains d.req.body "SIP/2.0 180" = true)) ∧
    (Contains d.req.body "SIP/2.0 200" = false → Contains d.req.body "SIP/2.0 180" = false →
      (∀ e ∈ (onNotify ch d).2, e.isTrySend = false) ∧ (onNotify ch d).1 = ch) := by
  have h : ∀ e ∈ decodeLog d.req.body, e.isTrySend = false := by
    intro e he
    obtain ⟨l, rfl⟩ := decodeLog_logs _ e he
    rfl
  have h2 : ∀ v sent, Event.trySend v sent ∉ decodeLog d.req.body := by
    intro v sent hm
    have := h _ hm
    simp [Event.isTrySend] at this
  constructor
  · unfold onNotify
    by_cases hc : (Contains d.req.body "SIP/2.0 200" && Contains d.req.body "OK"
        || Contains d.req.body "SIP/2.0 180") = true
    · simp only [hc, if_true]
      have hc2 := hc
      simp only [Bool.or_eq_true, Bool.and_eq_true] at hc2
      simp only [hc2, iff_true]
      refine ⟨true, (ch.trySend true).2, ?_⟩
      simp
    · simp only [hc, if_false]
      have hc2 := hc
      simp only [Bool.or_eq_true, Bool.and_eq_true] at hc2
      simp only [hc2, iff_false]
      rintro ⟨v, sent, hm⟩
      cases hr : d.respondErr <;> simp [hr, h2] at hm
  · intro h200 h180
    unfold onNotify
    simp only [h200, h180, Bool.false_and, Bool.or_false]
    refine ⟨?_, by simp⟩
    intro e he
    simp only [Bool.false_eq_true, if_false, List.append_nil, List.mem_append] at he
    rcases he with (he | he) | he
    · simp at he
      rcases he with he | he <;> subst he <;> rfl
    · exact h _ he
    · cases hr : d.respondErr <;> simp [hr] at he
      · subst he; rfl
      · rcases he with he | he <;> subst he <;> rfl

/-- Witness of C2: a body that reports only 486 causes no offer, and a body
"SIP/2.0 180 Ringing" causes one, on the empty channel. -/
theorem onNotify_signal_iff_witness :
    ((∀ e ∈ (onNotify (Chan.make 1) (notifyOf "SIP/2.0 486 Busy Here")).2,
        e.isTrySend = false) ∧
      (onNotify (Chan.make 1) (notifyOf "SIP/2.0 486 Busy Here")).1 = Chan.make 1) ∧
    (∃ v sent, Event.trySend v sent ∈
      (onNotify (Chan.make 1) (notifyOf "SIP/2.0 180 Ringing")).2) :=
  ⟨(onNotify_signal_iff (Chan.make 1) (notifyOf "SIP/2.0 486 Busy Here")).2
      (by decide) (by decide),
    (onNotify_signal_iff (Chan.make 1) (notifyOf "SIP/2.0 180 Ringing")).1.2
      (Or.inr (by decide))⟩

/-- C8: for every NOTIFY request and every state of the completion channel,
whether the request's reply fails or not, the handler replies exactly once,
and the reply is the 200 "OK" response built from that request. -/
theorem onNotify_replies_once (ch : Chan) (d : Delivery) :
    List.filter Event.isRespond (onNotify ch d).2 = [.respond d.req 200 "OK"] ∧
    List.countP Event.isRespond (onNotify ch d).2 = 1 :=
  ⟨onNotify_filter_respond ch d, onNotify_countP_respond ch d⟩

/-- C3: from the empty channel of capacity 1 and with no receiver running,
after every prefix of every sequence of NOTIFY requests at most one signal is
pending, and every invocation runs through to its reply; when the sequence is
not empty and every body asks for the signal, exactly one offer is taken, one
signal is pending at the end, a receive takes it and a second receive finds
nothing, and the wait of `main` ends Completed on it. -/
theorem completion_channel_single_slot (ds : List Delivery) :
    (∀ k, (serveNotifies (Chan.make 1) (ds.take k)).1.pending ≤ 1) ∧
    List.countP Event.isRespond (serveNotifies (Chan.make 1) ds).2 = ds.length ∧
    (ds ≠ [] →
      (∀ d ∈ ds, (Contains d.req.body "SIP/2.0 200" = true ∧ Contains d.req.body "OK" = true)
        ∨ Contains d.req.body "SIP/2.0 180" = true) →
      (serveNotifies (Chan.make 1) ds).1.pending = 1 ∧
      List.countP Event.isSent (serveNotifies (Chan.make 1) ds).2 = 1 ∧
      (serveNotifies (Chan.make 1) ds).1.recv = some (true, Chan.make 1) ∧
      (Chan.make 1).recv = none ∧
      (waitForTransfer (serveNotifies (Chan.make 1) ds).1 false).1 = .Completed) := by
  refine ⟨?_, serveNotifies_countP_respond ds _, ?_⟩
  · intro k
    exact (serveNotifies_bounded (ds.take k) (Chan.make 1) (by decide)).2
  · intro hne hall
    cases ds with
    | nil => exact absurd rfl hne
    | cons d rest =>
      have hd := hall d (List.mem_cons_self _ _)
      have hc : ((Contains d.req.body "SIP/2.0 200" && Contains d.req.body "OK")
          || Contains d.req.body "SIP/2.0 180") = true := by
        simpa only [Bool.or_eq_true, Bool.and_eq_true] using hd
      have h1 : (onNotify (Chan.make 1) d).1 = { cap := 1, buf := [true] } := by
        rw [onNotify_chan, if_pos hc]
        rfl
      have h2 : List.countP Event.isSent (onNotify (Chan.make 1) d).2 = 1 := by
        rw [onNotify_countP_sent, if_pos ⟨hc, by decide⟩]
      have h3 := serveNotifies_full rest { cap := 1, buf := [true] } rfl rfl
      simp only [serveNotifies, List.countP_append]
      rw [h1, h2, h3.1, h3.2]
      exact ⟨rfl, rfl, rfl, rfl, rfl⟩

/-- Witness of C3: ten NOTIFY requests with the body "SIP/2.0 200 OK". -/
theorem completion_channel_single_slot_witness :
    (serveNotifies (Chan.make 1) (List.replicate 10 (notifyOf "SIP/2.0 200 OK"))).1.pending = 1 ∧
    List.countP Event.isSent
      (serveNotifies (Chan.make 1) (List.replicate 10 (notifyOf "SIP/2.0 200 OK"))).2 = 1 ∧
    (serveNotifies (Chan.make 1) (List.replicate 10 (notifyOf "SIP/2.0 200 OK"))).1.recv
      = some (true, Chan.make 1) ∧
    (Chan.make 1).recv = none ∧
    (waitForTransfer
      (serveNotifies (Chan.make 1) (List.replicate 10 (notifyOf "SIP/2.0 200 OK"))).1 false).1
      = .Completed :=
  (completion_channel_single_slot (List.replicate 10 (notifyOf "SIP/2.0 200 OK"))).2.2
    (by decide)
    (fun d hd => by
      rw [List.eq_of_mem_replicate hd]
      exact Or.inl ⟨by decide, by decide⟩)

/-- C10, as the code has it: the handler reports the outcome of the first
test that matches, in the order "SIP/2.0 200" (accepted, and only when the
body also contains "OK"; nothing otherwise), 180, 183, 486, 404, 487, 603; a
body that contains none of the seven reports nothing, leaves the channel as
it was, and does nothing but log (the receipt, and the failure of the reply
when it fails) and send the 200 reply. -/
theorem onNotify_classification (ch : Chan) (d : Delivery) :
    classified (onNotify ch d).2 =
      (if Contains d.req.body "SIP/2.0 200" then
        (if Contains d.req.body "OK" then [TransferStatus.accepted] else [])
      else if Contains d.req.body "SIP/2.0 180" then [.ringing]
      else if Contains d.req.body "SIP/2.0 183" then [.inProgress]
      else if Contains d.req.body "SIP/2.0 486" then [.busy]
      else if Contains d.req.body "SIP/2.0 404" then [.notFound]
      else if Contains d.req.body "SIP/2.0 487" then [.cancelled]
      else if Contains d.req.body "SIP/2.0 603" then [.declined]
      else []) ∧
    (Contains d.req.body "SIP/2.0 200" = false → Contains d.req.body "SIP/2.0 180" = false →
      Contains d.req.body "SIP/2.0 183" = false → Contains d.req.body "SIP/2.0 486" = false →
      Contains d.req.body "SIP/2.0 404" = false → Contains d.req.body "SIP/2.0 487" = false →
      Contains d.req.body "SIP/2.0 603" = false →
      classified (onNotify ch d).2 = [] ∧ (onNotify ch d).1 = ch ∧
      List.filter (fun e => !e.isLog) (onNotify ch d).2 = [.respond d.req 200 "OK"]) := by
  have hcl := (classified_onNotify ch d).trans (classified_decodeLog d.req.body)
  refine ⟨hcl, ?_⟩
  intro h1 h2 h3 h4 h5 h6 h7
  refine ⟨?_, ?_, ?_⟩
  · rw [hcl]
    simp [h1, h2, h3, h4, h5, h6, h7]
  · rw [onNotify_chan]
    simp [h1, h2]
  · unfold onNotify decodeLog
    cases hr : d.respondErr <;>
      simp [h1, h2, h3, h4, h5, h6, h7, Event.isLog, List.filter]

/-- Witness of C10 as amended: a body that reports 500 is not classified,
and a body that reports 486 is classified as busy. -/
theorem onNotify_classification_witness :
    (classified (onNotify (Chan.make 1) (notifyOf "SIP/2.0 500 Server Error")).2 = [] ∧
      (onNotify (Chan.make 1) (notifyOf "SIP/2.0 500 Server Error")).1 = Chan.make 1 ∧
      List.filter (fun e => !e.isLog)
          (onNotify (Chan.make 1) (notifyOf "SIP/2.0 500 Server Error")).2
        = [.respond (notifyOf "SIP/2.0 500 Server Error").req 200 "OK"]) ∧
    classified (onNotify (Chan.make 1) (notifyOf "SIP/2.0 486 Busy Here")).2 = [.busy] :=
  ⟨(onNotify_classification (Chan.make 1) (notifyOf "SIP/2.0 500 Server Error")).2
      (by decide) (by decide) (by decide) (by decide) (by decide) (by decide) (by decide),
    (onNotify_classification (Chan.make 1) (notifyOf "SIP/2.0 486 Busy Here")).1.trans
      (by decide)⟩

/-- Counterexample to C10 as stated: the body "SIP/2.0 200 Accepted" embeds
a status line with the code 200, which the stated table maps to accepted, and
the handler reports no outcome for it. -/
theorem onNotify_classification_counterexample :
    (notifyOf "SIP/2.0 200 Accepted").req.body = statusLine 200 "Accepted" ∧
    claimedStatus 200 = some .accepted ∧
    classified (onNotify (Chan.make 1) (notifyOf "SIP/2.0 200 Accepted")).2 = [] := by
  decide

/-! ## Registration and transfer: lemmas -/

theorem AppendHeader_Method (req : Request) (h : Header) :
    (req.AppendHeader h).Method = req.Method := rfl

theorem RemoveHeader_Method (req : Request) (name : String) :
    (req.RemoveHeader name).Method = req.Method := rfl

theorem terminal_of_first (tx : ClientTransaction) (res : Response) (rest : List Response)
    (h : tx.responses = res :: rest) (hfinal : 200 ≤ res.StatusCode) :
    tx.terminal = some res := by
  simp [ClientTransaction.terminal, h, hfinal]

/-! ## Registration and transfer: claims -/

/-- C1, as the code has it: what `registerToServer` returns and how many
REGISTER requests it sends, by the first response each transaction delivers,
of whatever class and whatever follows it, for every identity, secret and
server.  First response 200: success, one request, no digest.  First
response 401 with a usable challenge and second response 200: success, two
requests, one digest.  First response 401 and a second response other than
200 (a second 401 too): an error after two requests, both when stated on the
answers of the registrar to a usable challenge and when stated on the
responses the run received.  First response neither 200 nor 401 (a
provisional 100 too): an error after one request. -/
theorem registerToServer_contract (w : World) (username password server localIP : String) :
    (∀ r1 rest1, w.registerTx 0 = .ok ⟨r1 :: rest1⟩ → r1.StatusCode = 200 →
      (registerToServer w username password server localIP).1 = .ok () ∧
      List.countP (Event.isRequest .REGISTER)
        (registerToServer w username password server localIP).2 = 1 ∧
      List.countP Event.isDigest (registerToServer w username password server localIP).2 = 0) ∧
    (∀ r1 rest1 r2 rest2 wwwAuth chal cred, w.registerTx 0 = .ok ⟨r1 :: rest1⟩ →
      r1.StatusCode = 401 →
      r1.GetHeader "WWW-Authenticate" = some wwwAuth →
      w.ParseChallenge wwwAuth.Value = .ok chal →
      w.Digest chal
        { Method := "REGISTER",
          URI := (w.ParseUri ("sip:" ++ username ++ "@" ++ server)).Host,
          Username := username, Password := password } = .ok cred →
      w.registerTx 1 = .ok ⟨r2 :: rest2⟩ →
      (r2.StatusCode = 200 →
        (registerToServer w username password server localIP).1 = .ok () ∧
        List.countP (Event.isRequest .REGISTER)
          (registerToServer w username password server localIP).2 = 2 ∧
        List.countP Event.isDigest (registerToServer w username password server localIP).2 = 1) ∧
      (r2.StatusCode ≠ 200 →
        (registerToServer w username password server localIP).1.isError = true ∧
        List.countP (Event.isRequest .REGISTER)
          (registerToServer w username password server localIP).2 = 2)) ∧
    (∀ r1 r2, responsesOf (registerToServer w username password server localIP).2 = [r1, r2] →
      r1.StatusCode = 401 → r2.StatusCode ≠ 200 →
      (registerToServer w username password server localIP).1.isError = true ∧
      List.countP (Event.isRequest .REGISTER)
        (registerToServer w username password server localIP).2 = 2) ∧
    (∀ r1 rest1, w.registerTx 0 = .ok ⟨r1 :: rest1⟩ → r1.StatusCode ≠ 200 →
      r1.StatusCode ≠ 401 →
      (registerToServer w username password server localIP).1.isError = true ∧
      List.countP (Event.isRequest .REGISTER)
        (registerToServer w username password server localIP).2 = 1) := by
  refine ⟨?_, ?_, ?_, ?_⟩
  · intro r1 rest1 h0 hs
    simp [registerToServer, h0, getResponse, hs, Event.isRequest, Event.isDigest,
      List.countP_cons]
  · intro r1 rest1 r2 rest2 wwwAuth chal cred h0 hs hh hp hd h1
    constructor
    · intro h2
      simp [registerToServer, authenticateAndRegister, h0, getResponse, hs, hh, hp, hd, h1, h2,
        RequestMethod.String, Event.isRequest, Event.isDigest, List.countP_cons,
        AppendHeader_Method, RemoveHeader_Method]
    · intro h2
      simp [registerToServer, authenticateAndRegister, h0, getResponse, hs, hh, hp, hd, h1, h2,
        RequestMethod.String, Event.isRequest, Event.isDigest, List.countP_cons,
        AppendHeader_Method, RemoveHeader_Method, Outcome.isError]
  · intro r1 r2 hr hs1 hs2
    revert hr
    cases h0 : w.registerTx 0 with
    | error e => simp [registerToServer, h0, responsesOf]
    | ok tx =>
      rcases tx with ⟨_ | ⟨res, rest⟩⟩
      · simp [registerToServer, h0, getResponse, responsesOf]
      · by_cases h401 : res.StatusCode = 401
        · cases hh : res.GetHeader "WWW-Authenticate" with
          | none =>
            simp [registerToServer, authenticateAndRegister, h0, getResponse, h401, hh,
              responsesOf]
          | some wwwAuth =>
            cases hp : w.ParseChallenge wwwAuth.Value with
            | error e =>
              simp [registerToServer, authenticateAndRegister, h0, getResponse, h401, hh, hp,
                responsesOf]
            | ok chal =>
              cases hd : w.Digest chal
                { Method := "REGISTER",
                  URI := (w.ParseUri ("sip:" ++ username ++ "@" ++ server)).Host,
                  Username := username, Password := password } with
              | error e =>
                simp [registerToServer, authenticateAndRegister, h0, getResponse, h401, hh, hp,
                  hd, RequestMethod.String, responsesOf]
              | ok cred =>
                cases h1 : w.registerTx 1 with
                | error e =>
                  simp [registerToServer, authenticateAndRegister, h0, getResponse, h401, hh, hp,
                    hd, h1, RequestMethod.String, responsesOf]
                | ok tx2 =>
                  rcases tx2 with ⟨_ | ⟨res2, rest2⟩⟩
                  · simp [registerToServer, authenticateAndRegister, h0, getResponse, h401, hh,
                      hp, hd, h1, RequestMethod.String, responsesOf]
                  · by_cases h200 : res2.StatusCode = 200
                    · simp only [registerToServer, authenticateAndRegister, h0, getResponse,
                        h401, hh, hp, hd, h1, h200, RequestMethod.String]
                      simp [responsesOf]
                      intro _ h2
                      rw [← h2] at hs2
                      exact absurd h200 hs2
                    · simp [registerToServer, authenticateAndRegister, h0, getResponse, h401, hh,
                        hp, hd, h1, h200, RequestMethod.String, responsesOf, Outcome.isError,
                        Event.isRequest, List.countP_cons, AppendHeader_Method,
                        RemoveHeader_Method]
        · by_cases h200 : res.StatusCode = 200
          · simp [registerToServer, h0, getResponse, h401, h200, responsesOf]
          · simp [registerToServer, h0, getResponse, h401, h200, responsesOf]
  · intro r1 rest1 h0 hs ha
    simp [registerToServer, h0, getResponse, hs, ha, Event.isRequest, List.countP_cons,
      Outcome.isError]

/-- Witness of C1 as amended: a registrar that accepts at once, one that
challenges and then accepts, one that challenges twice, one that answers
403, and one that sends 100 before its 200. -/
theorem registerToServer_contract_witness :
    ((registerToServer cooperativeWorld "alice" "secret" "chicago.voip.ms" "192.0.2.10").1
        = .ok () ∧
      List.countP (Event.isRequest .REGISTER)
        (registerToServer cooperativeWorld "alice" "secret" "chicago.voip.ms" "192.0.2.10").2
        = 1 ∧
      List.countP Event.isDigest
        (registerToServer cooperativeWorld "alice" "secret" "chicago.voip.ms" "192.0.2.10").2
        = 0) ∧
    ((registerToServer challengingWorld "alice" "secret" "chicago.voip.ms" "192.0.2.10").1
        = .ok () ∧
      List.countP (Event.isRequest .REGISTER)
        (registerToServer challengingWorld "alice" "secret" "chicago.voip.ms" "192.0.2.10").2
        = 2 ∧
      List.countP Event.isDigest
        (registerToServer challengingWorld "alice" "secret" "chicago.voip.ms" "192.0.2.10").2
        = 1) ∧
    ((registerToServer rechallengingWorld "alice" "secret" "chicago.voip.ms" "192.0.2.10").1.isError
        = true ∧
      List.countP (Event.isRequest .REGISTER)
        (registerToServer rechallengingWorld "alice" "secret" "chicago.voip.ms" "192.0.2.10").2
        = 2) ∧
    ((registerToServer rechallengingWorld "alice" "secret" "chicago.voip.ms" "192.0.2.10").1.isError
        = true ∧
      List.countP (Event.isRequest .REGISTER)
        (registerToServer rechallengingWorld "alice" "secret" "chicago.voip.ms" "192.0.2.10").2
        = 2) ∧
    ((registerToServer forbiddenWorld "alice" "secret" "chicago.voip.ms" "192.0.2.10").1.isError
        = true ∧
      List.countP (Event.isRequest .REGISTER)
        (registerToServer forbiddenWorld "alice" "secret" "chicago.voip.ms" "192.0.2.10").2
        = 1) ∧
    ((registerToServer tryingWorld "alice" "secret" "chicago.voip.ms" "192.0.2.10").1.isError
        = true ∧
      List.countP (Event.isRequest .REGISTER)
        (registerToServer tryingWorld "alice" "secret" "chicago.voip.ms" "192.0.2.10").2
        = 1) :=
  ⟨(registerToServer_contract cooperativeWorld "alice" "secret" "chicago.voip.ms"
      "192.0.2.10").1 ⟨200, "OK", []⟩ [] rfl rfl,
    ((registerToServer_contract challengingWorld "alice" "secret" "chicago.voip.ms"
      "192.0.2.10").2.1
        ⟨401, "Unauthorized", [⟨"WWW-Authenticate", "Digest realm=voip.ms"⟩]⟩ []
        ⟨200, "OK", []⟩ []
        ⟨"WWW-Authenticate", "Digest realm=voip.ms"⟩ ⟨"voip.ms", "4f6a", "MD5", "", []⟩
        ⟨"Digest username=alice"⟩ rfl rfl (by decide) rfl rfl rfl).1 rfl,
    ((registerToServer_contract rechallengingWorld "alice" "secret" "chicago.voip.ms"
      "192.0.2.10").2.1
        ⟨401, "Unauthorized", [⟨"WWW-Authenticate", "Digest realm=voip.ms"⟩]⟩ []
        ⟨401, "Unauthorized", [⟨"WWW-Authenticate", "Digest realm=voip.ms"⟩]⟩ []
        ⟨"WWW-Authenticate", "Digest realm=voip.ms"⟩ ⟨"voip.ms", "4f6a", "MD5", "", []⟩
        ⟨"Digest username=alice"⟩ rfl rfl (by decide) rfl rfl rfl).2 (by decide),
    (registerToServer_contract rechallengingWorld "alice" "secret" "chicago.voip.ms"
      "192.0.2.10").2.2.1
        ⟨401, "Unauthorized", [⟨"WWW-Authenticate", "Digest realm=voip.ms"⟩]⟩
        ⟨401, "Unauthorized", [⟨"WWW-Authenticate", "Digest realm=voip.ms"⟩]⟩
        (by decide) rfl (by decide),
    (registerToServer_contract forbiddenWorld "alice" "secret" "chicago.voip.ms"
      "192.0.2.10").2.2.2 ⟨403, "Forbidden", []⟩ [] rfl (by decide) (by decide),
    (registerToServer_contract tryingWorld "alice" "secret" "chicago.voip.ms"
      "192.0.2.10").2.2.2 ⟨100, "Trying", []⟩ [⟨200, "OK", []⟩] rfl (by decide) (by decide)⟩

/-- Counterexample to C1 as stated: the registrar sends the provisional 100
and then the terminal response 200.  The terminal response of the first
transaction is 200, and `registerToServer` returns the error "registration
failed: 100 Trying" after its one REGISTER. -/
theorem registerToServer_contract_counterexample :
    tryingWorld.registerTx 0 = .ok ⟨[⟨100, "Trying", []⟩, ⟨200, "OK", []⟩]⟩ ∧
    ClientTransaction.terminal ⟨[⟨100, "Trying", []⟩, ⟨200, "OK", []⟩]⟩
      = some ⟨200, "OK", []⟩ ∧
    (registerToServer tryingWorld "alice" "secret" "chicago.voip.ms" "192.0.2.10").1
      = .error "registration failed: 100 Trying" ∧
    List.countP (Event.isRequest .REGISTER)
      (registerToServer tryingWorld "alice" "secret" "chicago.voip.ms" "192.0.2.10").2 = 1 :=
  ⟨rfl, by decide, by decide, by decide⟩

/-- C5, as the code has it: `transferCall` issues exactly one REFER; when
the first response its transaction delivers, of whatever class and whatever
follows it, has the status `s`, it returns success exactly when
`200 ≤ s < 300`, and otherwise the error "transfer failed: s reason", which
contains the decimal status and the reason phrase; when the transaction dies
without any response it returns an error. -/
theorem transferCall_contract (w : World) (dialog : DialogClientSession)
    (targetNumber server : String) :
    List.countP (Event.isRequest .REFER) (transferCall w dialog targetNumber server).2 = 1 ∧
    (∀ res rest, w.referTx = .ok ⟨res :: rest⟩ →
      ((transferCall w dialog targetNumber server).1 = .ok () ↔
        (200 ≤ res.StatusCode ∧ res.StatusCode < 300)) ∧
      (¬ (200 ≤ res.StatusCode ∧ res.StatusCode < 300) →
        (transferCall w dialog targetNumber server).1 =
          .error ("transfer failed: " ++ toString res.StatusCode ++ " " ++ res.Reason) ∧
        (toString res.StatusCode).data <:+:
          ("transfer failed: " ++ toString res.StatusCode ++ " " ++ res.Reason).data ∧
        res.Reason.data <:+:
          ("transfer failed: " ++ toString res.StatusCode ++ " " ++ res.Reason).data)) ∧
    (w.referTx = .ok ⟨[]⟩ →
      (transferCall w dialog targetNumber server).1 =
        .error "failed to get REFER response: transaction died") := by
  refine ⟨?_, ?_, ?_⟩
  · unfold transferCall
    cases h : w.referTx with
    | error e => simp [Event.isRequest, List.countP_cons]
    | ok tx =>
      rcases tx with ⟨_ | ⟨res, rest⟩⟩
      · simp [getResponse, Event.isRequest, List.countP_cons]
      · by_cases hs : 200 ≤ res.StatusCode ∧ res.StatusCode < 300
        · simp [getResponse, Event.isRequest, List.countP_cons, hs]
        · simp [getResponse, Event.isRequest, List.countP_cons, hs]
  · intro res rest h
    by_cases hs : 200 ≤ res.StatusCode ∧ res.StatusCode < 300
    · simp [transferCall, h, getResponse, hs]
    · simp only [transferCall, h, getResponse, hs, if_false, iff_false, not_false_eq_true,
        true_implies]
      refine ⟨by simp, by trivial, ?_, ?_⟩
      · simp only [String.data_append]
        exact ⟨"transfer failed: ".data, " ".data ++ res.Reason.data, by simp⟩
      · simp only [String.data_append]
        exact ⟨"transfer failed: ".data ++ (toString res.StatusCode).data ++ " ".data, [],
          by simp⟩
  · intro h
    simp [transferCall, h, getResponse]

/-- Witness of C5 as amended: a REFER accepted with 202, one rejected with
603, one whose transaction dies, and one answered 100 before its 202. -/
theorem transferCall_contract_witness :
    (transferCall cooperativeWorld ⟨⟨"15551234567", "chicago.voip.ms", 0⟩, "alice"⟩
        "15559876543" "chicago.voip.ms").1 = .ok () ∧
    (transferCall rejectingWorld ⟨⟨"15551234567", "chicago.voip.ms", 0⟩, "alice"⟩
        "15559876543" "chicago.voip.ms").1
      = .error ("transfer failed: " ++ toString (603 : Int) ++ " " ++ "Decline") ∧
    (transferCall { cooperativeWorld with referTx := .ok ⟨[]⟩ }
        ⟨⟨"15551234567", "chicago.voip.ms", 0⟩, "alice"⟩ "15559876543" "chicago.voip.ms").1
      = .error "failed to get REFER response: transaction died" ∧
    (transferCall tryingTransferWorld ⟨⟨"15551234567", "chicago.voip.ms", 0⟩, "alice"⟩
        "15559876543" "chicago.voip.ms").1
      = .error ("transfer failed: " ++ toString (100 : Int) ++ " " ++ "Trying") :=
  ⟨((transferCall_contract cooperativeWorld ⟨⟨"15551234567", "chicago.voip.ms", 0⟩, "alice"⟩
      "15559876543" "chicago.voip.ms").2.1 ⟨202, "Accepted", []⟩ [] rfl).1.2 (by decide),
    (((transferCall_contract rejectingWorld ⟨⟨"15551234567", "chicago.voip.ms", 0⟩, "alice"⟩
      "15559876543" "chicago.voip.ms").2.1 ⟨603, "Decline", []⟩ [] rfl).2 (by decide)).1,
    (transferCall_contract { cooperativeWorld with referTx := .ok ⟨[]⟩ }
      ⟨⟨"15551234567", "chicago.voip.ms", 0⟩, "alice"⟩ "15559876543" "chicago.voip.ms").2.2 rfl,
    (((transferCall_contract tryingTransferWorld
      ⟨⟨"15551234567", "chicago.voip.ms", 0⟩, "alice"⟩ "15559876543" "chicago.voip.ms").2.1
        ⟨100, "Trying", []⟩ [⟨202, "Accepted", []⟩] rfl).2 (by decide)).1⟩

/-- Counterexample to C5 as stated: the trunk sends the provisional 100 and
then the terminal response 202.  The terminal status is in the 2xx class, and
`transferCall` returns the error "transfer failed: 100 Trying". -/
theorem transferCall_contract_counterexample :
    tryingTransferWorld.referTx = .ok ⟨[⟨100, "Trying", []⟩, ⟨202, "Accepted", []⟩]⟩ ∧
    ClientTransaction.terminal ⟨[⟨100, "Trying", []⟩, ⟨202, "Accepted", []⟩]⟩
      = some ⟨202, "Accepted", []⟩ ∧
    (transferCall tryingTransferWorld ⟨⟨"15551234567", "chicago.voip.ms", 0⟩, "alice"⟩
        "15559876543" "chicago.voip.ms").1
      = .error "transfer failed: 100 Trying" ∧
    (transferCall tryingTransferWorld ⟨⟨"15551234567", "chicago.voip.ms", 0⟩, "alice"⟩
        "15559876543" "chicago.voip.ms").1 ≠ .ok () :=
  ⟨rfl, by decide, by decide, by decide⟩

/-- The challenges `authenticateAndRegister` does turn into an error: when
the header is there and its value does not parse, or the digest cannot be
computed from it, an error is returned and no second REGISTER is sent. -/
theorem authenticateAndRegister_unusable_challenge (w : World) (originalReq : Request)
    (challenge : Response) (username password : String) (recipient : Uri) (wwwAuth : Header)
    (hh : challenge.GetHeader "WWW-Authenticate" = some wwwAuth)
    (hbad : (∃ err, w.ParseChallenge wwwAuth.Value = .error err) ∨
      (∃ chal err, w.ParseChallenge wwwAuth.Value = .ok chal ∧
        w.Digest chal
          { Method := originalReq.Method.String, URI := recipient.Host,
            Username := username, Password := password } = .error err)) :
    (authenticateAndRegister w originalReq challenge username password recipient).1.isError
      = true ∧
    List.countP (Event.isRequest .REGISTER)
      (authenticateAndRegister w originalReq challenge username password recipient).2 = 0 := by
  rcases hbad with ⟨err, hp⟩ | ⟨chal, err, hp, hd⟩
  · simp [authenticateAndRegister, hh, hp, Outcome.isError, Event.isRequest, List.countP_cons]
  · simp [authenticateAndRegister, hh, hp, hd, Outcome.isError, Event.isRequest,
      List.countP_cons]

/-- C7, the failing input: a 401 without a `WWW-Authenticate` header.  For
every world, request and credentials `authenticateAndRegister` panics on it
(it returns no error), `registerToServer` passes the panic on after its one
REGISTER, and `main` ends with the status 2 of a panic. -/
theorem authenticateAndRegister_missing_header_panics (w : World) (originalReq : Request)
    (reason username password : String) (recipient : Uri) :
    authenticateAndRegister w originalReq ⟨401, reason, []⟩ username password recipient
      = (.panic "invalid memory address or nil pointer dereference", []) ∧
    (authenticateAndRegister w originalReq ⟨401, reason, []⟩ username password
      recipient).1.isError = false ∧
    (registerToServer bareChallengeWorld "alice" "secret" "chicago.voip.ms" "192.0.2.10").1
      = .panic "invalid memory address or nil pointer dereference" ∧
    (main bareChallengeWorld).exit = 2 := by
  refine ⟨rfl, rfl, by decide, by decide⟩

/-! ## The orchestration: lemmas -/

theorem registerToServer_events (w : World) (username password server localIP : String) :
    (registerToServer w username password server localIP).2.all
      (fun e => !e.afterRegister) = true := by
  unfold registerToServer authenticateAndRegister
  dsimp only
  repeat' split
  all_goals simp [Event.afterRegister, Event.isInvite, Event.isRequest, Event.isTimeAfter,
      Event.isBye, AppendHeader_Method, RemoveHeader_Method]

theorem makeCall_events (w : World) (phoneNumber server username password : String) :
    (makeCall w phoneNumber server username password).2.all
      (fun e => !e.afterCall) = true := by
  unfold makeCall
  repeat' split
  all_goals simp [Event.afterCall, Event.isRequest, Event.isTimeAfter, Event.isBye]

theorem transferCall_events (w : World) (dialog : DialogClientSession)
    (targetNumber server : String) :
    (transferCall w dialog targetNumber server).2.all
      (fun e => !e.afterTransfer) = true := by
  unfold transferCall
  repeat' split
  all_goals simp [Event.afterTransfer, Event.isTimeAfter, Event.isBye]


theorem all_afterCall_of_afterRegister (l : List Event)
    (h : l.all (fun e => !e.afterRegister) = true) : l.all (fun e => !e.afterCall) = true := by
  rw [List.all_eq_true] at h ⊢
  intro e he
  have := h e he
  simp only [Event.afterRegister, Event.afterCall, Bool.not_eq_true', Bool.or_eq_false_iff]
    at this ⊢
  tauto

theorem all_afterTransfer_of_afterCall (l : List Event)
    (h : l.all (fun e => !e.afterCall) = true) : l.all (fun e => !e.afterTransfer) = true := by
  rw [List.all_eq_true] at h ⊢
  intro e he
  have := h e he
  simp only [Event.afterTransfer, Event.afterCall, Bool.not_eq_true', Bool.or_eq_false_iff]
    at this ⊢
  tauto

theorem orchestrate_run (w : World) (phone1 phone2 : String) :
    ((orchestrate w phone1 phone2).terminal = none ∧
      (orchestrate w phone1 phone2).trace.all (fun e => !e.afterRegister) = true) ∨
    ((orchestrate w phone1 phone2).terminal = none ∧
      (registerToServer w (w.Getenv "VOIPMS_USER") (w.Getenv "VOIPMS_PASS") (serverOf w)
        (getLocalIP w.InterfaceAddrs)).1 = .ok () ∧
      (orchestrate w phone1 phone2).trace.all (fun e => !e.afterCall) = true) ∨
    ((orchestrate w phone1 phone2).terminal = none ∧
      (registerToServer w (w.Getenv "VOIPMS_USER") (w.Getenv "VOIPMS_PASS") (serverOf w)
        (getLocalIP w.InterfaceAddrs)).1 = .ok () ∧
      (∃ dialog, (makeCall w phone1 (serverOf w) (w.Getenv "VOIPMS_USER")
        (w.Getenv "VOIPMS_PASS")).1 = .ok dialog) ∧
      (orchestrate w phone1 phone2).trace.all (fun e => !e.afterTransfer) = true) ∨
    ((registerToServer w (w.Getenv "VOIPMS_USER") (w.Getenv "VOIPMS_PASS") (serverOf w)
        (getLocalIP w.InterfaceAddrs)).1 = .ok () ∧
      ∃ dialog before,
        (makeCall w phone1 (serverOf w) (w.Getenv "VOIPMS_USER")
          (w.Getenv "VOIPMS_PASS")).1 = .ok dialog ∧
        (transferCall w dialog phone2 (serverOf w)).1 = .ok () ∧
        before.all (fun e => !e.afterTransfer) = true ∧
        orchestrate w phone1 phone2 =
          { exit := 0,
            trace := before ++
              (waitForTransfer (serveNotifies (Chan.make 1) w.notifies).1 w.timerFirst).2 ++
              [.log "\n✓ Call transfer completed successfully!", .closeDialog, .closeClient,
                .closeServer, .exit 0],
            handlers := (serveNotifies (Chan.make 1) w.notifies).2,
            terminal :=
              some (waitForTransfer (serveNotifies (Chan.make 1) w.notifies).1 w.timerFirst).1 }) := by
  have hreg := registerToServer_events w (w.Getenv "VOIPMS_USER") (w.Getenv "VOIPMS_PASS")
    (serverOf w) (getLocalIP w.InterfaceAddrs)
  have hcall := makeCall_events w phone1 (serverOf w) (w.Getenv "VOIPMS_USER")
    (w.Getenv "VOIPMS_PASS")
  unfold orchestrate
  dsimp only
  split
  · left
    exact ⟨rfl, rfl⟩
  · split
    · left
      exact ⟨rfl, rfl⟩
    · split
      · left
        exact ⟨rfl, rfl⟩
      · split
        · left
          exact ⟨rfl, rfl⟩
        · split
          · left
            refine ⟨rfl, ?_⟩
            simp only [panicked, List.all_append, Bool.and_eq_true, hreg]
            repeat' constructor
          · left
            refine ⟨rfl, ?_⟩
            simp only [fatal, exitWith, List.all_append, Bool.and_eq_true, hreg]
            repeat' constructor
          · rename_i hregok
            have hreg2 := all_afterCall_of_afterRegister _ hreg
            split
            · right; left
              refine ⟨rfl, hregok, ?_⟩
              simp only [panicked, List.all_append, Bool.and_eq_true, hreg2, hcall]
              repeat' constructor
            · right; left
              refine ⟨rfl, hregok, ?_⟩
              simp only [fatal, exitWith, List.all_append, Bool.and_eq_true, hreg2, hcall]
              repeat' constructor
            · rename_i dialog hcallok
              have hx := transferCall_events w dialog phone2 (serverOf w)
              have hreg3 := all_afterTransfer_of_afterCall _ hreg2
              have hcall3 := all_afterTransfer_of_afterCall _ hcall
              split
              · right; right; left
                refine ⟨rfl, hregok, ⟨dialog, hcallok⟩, ?_⟩
                simp only [panicked, List.all_append, Bool.and_eq_true, hreg3, hcall3, hx]
                repeat' constructor
              · right; right; left
                refine ⟨rfl, hregok, ⟨dialog, hcallok⟩, ?_⟩
                simp only [fatal, exitWith, List.all_append, Bool.and_eq_true, hreg3, hcall3, hx]
                repeat' constructor
              · rename_i hxok
                right; right; right
                refine ⟨hregok, dialog, _, hcallok, hxok, ?_, rfl⟩
                simp only [List.all_append, Bool.and_eq_true, hreg3, hcall3, hx]
                repeat' constructor

theorem registerToServer_routed (w : World) (username password server localIP : String)
    (p1 p2 s : String) :
    (registerToServer w username password server localIP).2.all (Event.routed p1 p2 s) = true := by
  unfold registerToServer authenticateAndRegister
  dsimp only
  repeat' split
  all_goals simp [Event.routed, AppendHeader_Method, RemoveHeader_Method]

theorem makeCall_routed (w : World) (phoneNumber server username password : String)
    (p2 s : String) :
    (makeCall w phoneNumber server username password).2.all (Event.routed phoneNumber p2 s)
      = true := by
  unfold makeCall
  dsimp only
  repeat' split
  all_goals simp [Event.routed]

theorem transferCall_routed (w : World) (dialog : DialogClientSession)
    (targetNumber server p1 : String) :
    (transferCall w dialog targetNumber server).2.all (Event.routed p1 targetNumber server)
      = true := by
  unfold transferCall
  dsimp only
  repeat' split
  all_goals simp [Event.routed]

theorem waitForTransfer_routed (ch : Chan) (timerFirst : Bool) (p1 p2 s : String) :
    (waitForTransfer ch timerFirst).2.all (Event.routed p1 p2 s) = true := by
  unfold waitForTransfer
  dsimp only
  repeat' split
  all_goals rfl

theorem orchestrate_routed (w : World) (phone1 phone2 : String) :
    (orchestrate w phone1 phone2).trace.all (Event.routed phone1 phone2 (serverOf w)) = true := by
  have hreg := registerToServer_routed w (w.Getenv "VOIPMS_USER") (w.Getenv "VOIPMS_PASS")
    (serverOf w) (getLocalIP w.InterfaceAddrs) phone1 phone2 (serverOf w)
  have hcall := makeCall_routed w phone1 (serverOf w) (w.Getenv "VOIPMS_USER")
    (w.Getenv "VOIPMS_PASS") phone2 (serverOf w)
  have hwait := waitForTransfer_routed (serveNotifies (Chan.make 1) w.notifies).1 w.timerFirst
    phone1 phone2 (serverOf w)
  unfold orchestrate
  dsimp only
  repeat' split
  all_goals simp only [fatal, exitWith, panicked, List.all_append, Bool.and_eq_true, hreg, hcall,
    hwait, transferCall_routed]
  all_goals repeat' constructor


theorem main_run (w : World) :
    ((main w).terminal = none ∧
      (main w).trace.all (fun e => !e.afterRegister) = true) ∨
    ((main w).terminal = none ∧
      (registerToServer w (w.Getenv "VOIPMS_USER") (w.Getenv "VOIPMS_PASS") (serverOf w)
        (getLocalIP w.InterfaceAddrs)).1 = .ok () ∧
      (main w).trace.all (fun e => !e.afterCall) = true) ∨
    ((main w).terminal = none ∧
      (registerToServer w (w.Getenv "VOIPMS_USER") (w.Getenv "VOIPMS_PASS") (serverOf w)
        (getLocalIP w.InterfaceAddrs)).1 = .ok () ∧
      (∃ dialog, (makeCall w (w.Args.getD 1 "") (serverOf w) (w.Getenv "VOIPMS_USER")
        (w.Getenv "VOIPMS_PASS")).1 = .ok dialog) ∧
      (main w).trace.all (fun e => !e.afterTransfer) = true) ∨
    ((registerToServer w (w.Getenv "VOIPMS_USER") (w.Getenv "VOIPMS_PASS") (serverOf w)
        (getLocalIP w.InterfaceAddrs)).1 = .ok () ∧
      ∃ dialog before,
        (makeCall w (w.Args.getD 1 "") (serverOf w) (w.Getenv "VOIPMS_USER")
          (w.Getenv "VOIPMS_PASS")).1 = .ok dialog ∧
        (transferCall w dialog (w.Args.getD 2 "") (serverOf w)).1 = .ok () ∧
        before.all (fun e => !e.afterTransfer) = true ∧
        main w =
          { exit := 0,
            trace := before ++
              (waitForTransfer (serveNotifies (Chan.make 1) w.notifies).1 w.timerFirst).2 ++
              [.log "\n✓ Call transfer completed successfully!", .closeDialog, .closeClient,
                .closeServer, .exit 0],
            handlers := (serveNotifies (Chan.make 1) w.notifies).2,
            terminal :=
              some (waitForTransfer (serveNotifies (Chan.make 1) w.notifies).1 w.timerFirst).1 }) := by
  unfold main
  split
  · left
    exact ⟨rfl, rfl⟩
  · split
    · left
      exact ⟨rfl, rfl⟩
    · exact orchestrate_run w _ _

theorem not_afterRegister (l : List Event) (h : l.all (fun e => !e.afterRegister) = true) :
    ∀ e ∈ l, e.isInvite = false ∧ e.isRequest .REFER = false ∧ e.isTimeAfter = false
      ∧ e.isBye = false := by
  rw [List.all_eq_true] at h
  intro e he
  have := h e he
  simp only [Event.afterRegister, Bool.not_eq_true', Bool.or_eq_false_iff] at this
  tauto

theorem not_afterCall (l : List Event) (h : l.all (fun e => !e.afterCall) = true) :
    ∀ e ∈ l, e.isRequest .REFER = false ∧ e.isTimeAfter = false ∧ e.isBye = false := by
  rw [List.all_eq_true] at h
  intro e he
  have := h e he
  simp only [Event.afterCall, Bool.not_eq_true', Bool.or_eq_false_iff] at this
  tauto

theorem not_afterTransfer (l : List Event) (h : l.all (fun e => !e.afterTransfer) = true) :
    ∀ e ∈ l, e.isTimeAfter = false ∧ e.isBye = false := by
  rw [List.all_eq_true] at h
  intro e he
  have := h e he
  simp only [Event.afterTransfer, Bool.not_eq_true', Bool.or_eq_false_iff] at this
  tauto

theorem registerToServer_countP_later (w : World) (username password server localIP : String) :
    List.countP Event.isInvite (registerToServer w username password server localIP).2 = 0 ∧
    List.countP (Event.isRequest .REFER)
      (registerToServer w username password server localIP).2 = 0 := by
  have h := not_afterRegister _ (registerToServer_events w username password server localIP)
  constructor
  · rw [List.countP_eq_zero]
    intro e he
    simp [(h e he).1]
  · rw [List.countP_eq_zero]
    intro e he
    simp [(h e he).2.1]

theorem waitForTransfer_run (ch : Chan) (timerFirst : Bool) :
    List.filter Event.isTimeAfter (waitForTransfer ch timerFirst).2
      = [.timeAfter (30 * 1000000000)] ∧
    ((waitForTransfer ch timerFirst).1 = .Completed ↔ (0 < ch.pending ∧ timerFirst = false)) ∧
    ((waitForTransfer ch timerFirst).1 = .Completed →
      List.countP Event.isBye (waitForTransfer ch timerFirst).2 = 0) ∧
    ((waitForTransfer ch timerFirst).1 = .TimedOut →
      List.countP Event.isBye (waitForTransfer ch timerFirst).2 = 1) := by
  unfold waitForTransfer Chan.recv Chan.pending
  cases hb : ch.buf with
  | nil => simp [Event.isTimeAfter, Event.isBye, List.filter, List.countP_cons, Second]
  | cons v rest =>
    cases timerFirst <;>
      simp [Event.isTimeAfter, Event.isBye, List.filter, List.countP_cons, Second]

/-! ## The orchestration: claims -/

/-- C4: when `main` reaches the wait (which it enters after `transferCall`
returned success) it ends in one of the two terminal states and exits with
status 0, having armed one timer, of 30 seconds.  The state is Completed
exactly when a signal is pending and the `select` takes it before the timer;
then no BYE is sent.  Otherwise the state is TimedOut and exactly one BYE is
sent. -/
theorem coordinator_terminal (w : World) (t : Terminal) (h : (main w).terminal = some t) :
    (t = .Completed ∨ t = .TimedOut) ∧
    (main w).exit = 0 ∧
    List.filter Event.isTimeAfter (main w).trace = [.timeAfter (30 * 1000000000)] ∧
    (t = .Completed ↔
      (0 < (serveNotifies (Chan.make 1) w.notifies).1.pending ∧ w.timerFirst = false)) ∧
    (t = .Completed → List.countP Event.isBye (main w).trace = 0) ∧
    (t = .TimedOut → List.countP Event.isBye (main w).trace = 1) := by
  rcases main_run w with ⟨h1, _⟩ | ⟨h1, _⟩ | ⟨h1, _⟩ | ⟨_, dialog, before, _, _, hb, hm⟩
  · rw [h1] at h; exact absurd h (by simp)
  · rw [h1] at h; exact absurd h (by simp)
  · rw [h1] at h; exact absurd h (by simp)
  · have hw := waitForTransfer_run (serveNotifies (Chan.make 1) w.notifies).1 w.timerFirst
    have hnb := not_afterTransfer before hb
    have hf : List.filter Event.isTimeAfter before = [] := by
      rw [List.filter_eq_nil_iff]
      intro e he
      simp [(hnb e he).1]
    have hc : List.countP Event.isBye before = 0 := by
      rw [List.countP_eq_zero]
      intro e he
      simp [(hnb e he).2]
    rw [hm] at h ⊢
    simp only [Option.some.injEq] at h
    subst h
    refine ⟨?_, rfl, ?_, hw.2.1, ?_, ?_⟩
    · cases (waitForTransfer (serveNotifies (Chan.make 1) w.notifies).1 w.timerFirst).1
      · exact Or.inl rfl
      · exact Or.inr rfl
    · simp only [List.filter_append, hf, hw.1]
      rfl
    · intro ht
      simp only [List.countP_append, hc, hw.2.2.1 ht]
      rfl
    · intro ht
      simp only [List.countP_append, hc, hw.2.2.2 ht]
      rfl

/-- Witness of C4: the cooperative trunk, whose NOTIFY reports the pickup,
and the silent trunk. -/
theorem coordinator_terminal_witness :
    ((main cooperativeWorld).exit = 0 ∧
      List.countP Event.isBye (main cooperativeWorld).trace = 0) ∧
    ((main silentWorld).exit = 0 ∧
      List.countP Event.isBye (main silentWorld).trace = 1) :=
  ⟨⟨(coordinator_terminal cooperativeWorld .Completed (by decide)).2.1,
      (coordinator_terminal cooperativeWorld .Completed (by decide)).2.2.2.2.1 rfl⟩,
    ⟨(coordinator_terminal silentWorld .TimedOut (by decide)).2.1,
      (coordinator_terminal silentWorld .TimedOut (by decide)).2.2.2.2.2 rfl⟩⟩

/-- C6: in every run, an INVITE in the trace of `main` means that
`registerToServer` returned success; a REFER means that `makeCall` returned
success too; the wait, its timer or a BYE mean that `transferCall` returned
success too.  When the run gets to the registration and the first REGISTER
is answered 403, `main` exits with status 1 and no INVITE (nor REFER, timer
or BYE) is in the trace.  When the registration succeeded and the call setup
ends in 486, `main` exits with status 1 after its one INVITE and no REFER is
in the trace. -/
theorem main_step_order (w : World) :
    ((∃ e ∈ (main w).trace, e.isInvite = true) →
      (registerToServer w (w.Getenv "VOIPMS_USER") (w.Getenv "VOIPMS_PASS") (serverOf w)
        (getLocalIP w.InterfaceAddrs)).1 = .ok ()) ∧
    ((∃ e ∈ (main w).trace, e.isRequest .REFER = true) →
      (registerToServer w (w.Getenv "VOIPMS_USER") (w.Getenv "VOIPMS_PASS") (serverOf w)
        (getLocalIP w.InterfaceAddrs)).1 = .ok () ∧
      ∃ dialog, (makeCall w (w.Args.getD 1 "") (serverOf w) (w.Getenv "VOIPMS_USER")
        (w.Getenv "VOIPMS_PASS")).1 = .ok dialog) ∧
    (((main w).terminal ≠ none ∨
        ∃ e ∈ (main w).trace, e.isTimeAfter = true ∨ e.isBye = true) →
      (registerToServer w (w.Getenv "VOIPMS_USER") (w.Getenv "VOIPMS_PASS") (serverOf w)
        (getLocalIP w.InterfaceAddrs)).1 = .ok () ∧
      ∃ dialog, (makeCall w (w.Args.getD 1 "") (serverOf w) (w.Getenv "VOIPMS_USER")
          (w.Getenv "VOIPMS_PASS")).1 = .ok dialog ∧
        (transferCall w dialog (w.Args.getD 2 "") (serverOf w)).1 = .ok ()) ∧
    (∀ prog a b r1 rest1, w.Args = [prog, a, b] → a ≠ "--help" → a ≠ "-h" → a ≠ "help" →
      w.Getenv "VOIPMS_USER" ≠ "" → w.Getenv "VOIPMS_PASS" ≠ "" →
      w.NewUA = none → w.NewServer = none → w.NewClient = none →
      w.registerTx 0 = .ok ⟨r1 :: rest1⟩ → r1.StatusCode = 403 →
      (main w).exit = 1 ∧ (main w).terminal = none ∧
      List.countP Event.afterRegister (main w).trace = 0 ∧
      List.countP Event.isInvite (main w).trace = 0) ∧
    (∀ prog a b dialog r, w.Args = [prog, a, b] → a ≠ "--help" → a ≠ "-h" → a ≠ "help" →
      w.Getenv "VOIPMS_USER" ≠ "" → w.Getenv "VOIPMS_PASS" ≠ "" →
      w.NewUA = none → w.NewServer = none → w.NewClient = none →
      (registerToServer w (w.Getenv "VOIPMS_USER") (w.Getenv "VOIPMS_PASS") (serverOf w)
        (getLocalIP w.InterfaceAddrs)).1 = .ok () →
      w.Invite = .ok dialog → w.answer = some r → r.StatusCode = 486 →
      (main w).exit = 1 ∧ (main w).terminal = none ∧
      List.countP Event.isInvite (main w).trace = 1 ∧
      List.countP (Event.isRequest .REFER) (main w).trace = 0) := by
  refine ⟨?_, ?_, ?_, ?_, ?_⟩
  · rintro ⟨e, he, hi⟩
    rcases main_run w with ⟨_, ha⟩ | ⟨_, hr, _⟩ | ⟨_, hr, _⟩ | ⟨hr, _⟩
    · rw [(not_afterRegister _ ha e he).1] at hi
      exact absurd hi (by simp)
    · exact hr
    · exact hr
    · exact hr
  · rintro ⟨e, he, hi⟩
    rcases main_run w with ⟨_, ha⟩ | ⟨_, _, ha⟩ | ⟨_, hr, hc, _⟩ | ⟨hr, dialog, _, hc, _⟩
    · rw [(not_afterRegister _ ha e he).2.1] at hi
      exact absurd hi (by simp)
    · rw [(not_afterCall _ ha e he).1] at hi
      exact absurd hi (by simp)
    · exact ⟨hr, hc⟩
    · exact ⟨hr, dialog, hc⟩
  · intro hlate
    rcases main_run w with ⟨ht, ha⟩ | ⟨ht, _, ha⟩ | ⟨ht, _, _, ha⟩ | ⟨hr, dialog, _, hc, hx, _⟩
    · rcases hlate with hn | ⟨e, he, hi | hi⟩
      · exact absurd ht hn
      · rw [(not_afterRegister _ ha e he).2.2.1] at hi
        exact absurd hi (by simp)
      · rw [(not_afterRegister _ ha e he).2.2.2] at hi
        exact absurd hi (by simp)
    · rcases hlate with hn | ⟨e, he, hi | hi⟩
      · exact absurd ht hn
      · rw [(not_afterCall _ ha e he).2.1] at hi
        exact absurd hi (by simp)
      · rw [(not_afterCall _ ha e he).2.2] at hi
        exact absurd hi (by simp)
    · rcases hlate with hn | ⟨e, he, hi | hi⟩
      · exact absurd ht hn
      · rw [(not_afterTransfer _ ha e he).1] at hi
        exact absurd hi (by simp)
      · rw [(not_afterTransfer _ ha e he).2] at hi
        exact absurd hi (by simp)
    · exact ⟨hr, dialog, hc, hx⟩
  · intro prog a b r1 rest1 hargs h1 h2 h3 hu hp hua hsrv hcl h0 hs
    simp [main, hargs, h1, h2, h3, orchestrate, hu, hp, hua, hsrv, hcl, registerToServer, h0,
      getResponse, hs, fatal, exitWith, List.countP_cons, Event.afterRegister, Event.isInvite,
      Event.isRequest, Event.isTimeAfter, Event.isBye]
  · intro prog a b dialog r hargs h1 h2 h3 hu hp hua hsrv hcl hreg hinv hans hs
    have hk := registerToServer_countP_later w (w.Getenv "VOIPMS_USER") (w.Getenv "VOIPMS_PASS")
      (serverOf w) (getLocalIP w.InterfaceAddrs)
    simp [main, hargs, h1, h2, h3, orchestrate, hu, hp, hua, hsrv, hcl, hreg, makeCall, hinv,
      hans, WaitAnswer, hs, fatal, exitWith, List.countP_cons, List.countP_append, hk.1, hk.2,
      Event.isInvite, Event.isRequest]

/-- Witness of C6: the registrar that answers 403 and the callee that is
busy. -/
theorem main_step_order_witness :
    ((main forbiddenWorld).exit = 1 ∧ (main forbiddenWorld).terminal = none ∧
      List.countP Event.afterRegister (main forbiddenWorld).trace = 0 ∧
      List.countP Event.isInvite (main forbiddenWorld).trace = 0) ∧
    ((main busyWorld).exit = 1 ∧ (main busyWorld).terminal = none ∧
      List.countP Event.isInvite (main busyWorld).trace = 1 ∧
      List.countP (Event.isRequest .REFER) (main busyWorld).trace = 0) ∧
    (transferCall cooperativeWorld ⟨⟨"15551234567", "chicago.voip.ms", 0⟩, "alice"⟩
      "15559876543" "chicago.voip.ms").1 = .ok () :=
  ⟨(main_step_order forbiddenWorld).2.2.2.1 "siplink" "15551234567" "15559876543"
      ⟨403, "Forbidden", []⟩ [] rfl (by decide) (by decide) (by decide) (by decide) (by decide)
      rfl rfl rfl rfl rfl,
    (main_step_order busyWorld).2.2.2.2 "siplink" "15551234567" "15559876543"
      ⟨⟨"15551234567", "chicago.voip.ms", 0⟩, "alice"⟩ ⟨486, "Busy Here", []⟩
      rfl (by decide) (by decide) (by decide) (by decide) (by decide) rfl rfl rfl
      (by decide) rfl rfl rfl,
    by
      obtain ⟨_, dialog, hc, hx⟩ := (main_step_order cooperativeWorld).2.2.1
        (Or.inl (by decide))
      have hd : dialog = ⟨⟨"15551234567", "chicago.voip.ms", 0⟩, "alice"⟩ := by
        have hc2 : (makeCall cooperativeWorld (cooperativeWorld.Args.getD 1 "")
            (serverOf cooperativeWorld) (cooperativeWorld.Getenv "VOIPMS_USER")
            (cooperativeWorld.Getenv "VOIPMS_PASS")).1
            = .ok ⟨⟨"15551234567", "chicago.voip.ms", 0⟩, "alice"⟩ := by decide
        rw [hc2] at hc
        exact (Outcome.ok.inj hc).symm
      rw [hd] at hx
      exact hx⟩

/-- C9: for every argument vector.  When the first argument is "--help",
"-h" or "help", `main` prints the nine lines of the usage text, exits with
status 0 and does nothing else.  When it is not and the number of arguments
after the program name is not two, `main` prints the same nine lines and
exits with status 1.  When it
is not and there are exactly two, `main` goes on with the first as `phone1`
and the second as `phone2`, starting with the read of the environment.  A run
that reads the environment has exactly two arguments after the program
name. -/
theorem main_arguments (w : World) :
    (∀ prog a rest, w.Args = prog :: a :: rest → (a = "--help" ∨ a = "-h" ∨ a = "help") →
      (main w).exit = 0 ∧
      (main w).trace =
        [.print "SIPLink - SIP Call Bridging Tool",
          .print "================================",
          .print "\nUsage: siplink <phone1> <phone2>",
          .print "\nExample: siplink 15551234567 15559876543",
          .print "\nSet environment variables:",
          .print "  export VOIPMS_USER='your_account'",
          .print "  export VOIPMS_PASS='your_password'",
          .print "  export VOIPMS_SERVER='chicago.voip.ms'",
          .print "\nSee https://github.com/ak2k/siplink for more info.",
          .exit 0] ∧
      (∀ e ∈ (main w).trace, (∃ line, e = .print line) ∨ e = .exit 0)) ∧
    ((¬ ∃ prog a rest, w.Args = prog :: a :: rest ∧ (a = "--help" ∨ a = "-h" ∨ a = "help")) →
      w.Args.tail.length ≠ 2 →
      (main w).exit = 1 ∧
      (main w).trace =
        [.print "SIPLink - SIP Call Bridging Tool",
          .print "================================",
          .print "\nUsage: siplink <phone1> <phone2>",
          .print "\nExample: siplink 15551234567 15559876543",
          .print "\nSet environment variables:",
          .print "  export VOIPMS_USER='your_account'",
          .print "  export VOIPMS_PASS='your_password'",
          .print "  export VOIPMS_SERVER='chicago.voip.ms'",
          .print "\nSee https://github.com/ak2k/siplink for more info.",
          .exit 1]) ∧
    (∀ prog a b, w.Args = [prog, a, b] → a ≠ "--help" → a ≠ "-h" → a ≠ "help" →
      main w = orchestrate w a b ∧
      [Event.getenv "VOIPMS_USER", .getenv "VOIPMS_PASS", .getenv "VOIPMS_SERVER"]
        <+: (main w).trace ∧
      (∀ recipient body header, Event.invite recipient body header ∈ (main w).trace →
        recipient.User = a) ∧
      (∀ req, Event.transactionRequest req ∈ (main w).trace → req.Method = .REFER →
        (⟨"Refer-To", "sip:" ++ b ++ "@" ++ serverOf w⟩ : Header) ∈ req.headers)) ∧
    ((∃ name, Event.getenv name ∈ (main w).trace) →
      ∃ prog a b, w.Args = [prog, a, b] ∧ main w = orchestrate w a b) := by
  refine ⟨?_, ?_, ?_, ?_⟩
  · intro prog a rest hargs ha
    have hm : main w = exitWith 0 showHelp := by
      unfold main
      rw [if_pos]
      rw [hargs]
      exact ⟨by simp, by simpa using ha⟩
    rw [hm]
    refine ⟨rfl, rfl, ?_⟩
    intro e he
    simp only [exitWith, showHelp, List.cons_append, List.nil_append, List.mem_cons,
      List.mem_singleton, List.not_mem_nil, or_false] at he
    rcases he with he | he | he | he | he | he | he | he | he | he
    all_goals first | exact Or.inr he | exact Or.inl ⟨_, he⟩
  · intro hnot hlen
    have hm : main w = exitWith 1 showHelp := by
      unfold main
      rw [if_neg, if_pos]
      · intro h3
        apply hlen
        cases hA : w.Args with
        | nil => rw [hA] at h3; simp at h3
        | cons x xs => rw [hA] at h3; simp at h3; simp [h3]
      · rintro ⟨hl, hh⟩
        apply hnot
        cases hA : w.Args with
        | nil => rw [hA] at hl; simp at hl
        | cons x xs =>
          cases xs with
          | nil => rw [hA] at hl; simp at hl
          | cons y ys =>
            rw [hA] at hh
            exact ⟨x, y, ys, rfl, by simpa using hh⟩
    rw [hm]
    exact ⟨rfl, rfl⟩
  · intro prog a b hargs h1 h2 h3
    have hm : main w = orchestrate w a b := by
      unfold main
      rw [if_neg, if_neg]
      · rw [hargs]; rfl
      · rw [hargs]; simp
      · rw [hargs]; simp [h1, h2, h3]
    have hr := orchestrate_routed w a b
    rw [List.all_eq_true] at hr
    rw [hm]
    refine ⟨rfl, ?_, ?_, ?_⟩
    · unfold orchestrate
      dsimp only
      repeat' split
      all_goals simp [fatal, exitWith, panicked]
    · intro recipient body header hmem
      have := hr _ hmem
      simpa [Event.routed] using this
    · intro req hmem hmeth
      have := hr _ hmem
      simpa [Event.routed, hmeth] using this
  · rintro ⟨name, hn⟩
    unfold main at hn ⊢
    split at hn
    · simp [exitWith, showHelp] at hn
    · split at hn
      · simp [exitWith, showHelp] at hn
      · rename_i hh hl
        rw [if_neg hh, if_neg hl]
        push_neg at hl
        match hA : w.Args, hl with
        | [prog, a, b], _ => exact ⟨prog, a, b, rfl, rfl⟩

/-- Witness of C9: a help request with further arguments, a single
argument, and two numbers. -/
theorem main_arguments_witness :
    ((main { cooperativeWorld with Args := ["siplink", "-h", "15551234567"] }).exit = 0 ∧
      (main { cooperativeWorld with Args := ["siplink", "-h", "15551234567"] }).trace
        = [.print "SIPLink - SIP Call Bridging Tool",
          .print "================================",
          .print "\nUsage: siplink <phone1> <phone2>",
          .print "\nExample: siplink 15551234567 15559876543",
          .print "\nSet environment variables:",
          .print "  export VOIPMS_USER='your_account'",
          .print "  export VOIPMS_PASS='your_password'",
          .print "  export VOIPMS_SERVER='chicago.voip.ms'",
          .print "\nSee https://github.com/ak2k/siplink for more info.",
          .exit 0]) ∧
    ((main { cooperativeWorld with Args := ["siplink", "15551234567"] }).exit = 1 ∧
      (main { cooperativeWorld with Args := ["siplink", "15551234567"] }).trace
        = [.print "SIPLink - SIP Call Bridging Tool",
          .print "================================",
          .print "\nUsage: siplink <phone1> <phone2>",
          .print "\nExample: siplink 15551234567 15559876543",
          .print "\nSet environment variables:",
          .print "  export VOIPMS_USER='your_account'",
          .print "  export VOIPMS_PASS='your_password'",
          .print "  export VOIPMS_SERVER='chicago.voip.ms'",
          .print "\nSee https://github.com/ak2k/siplink for more info.",
          .exit 1]) ∧
    main cooperativeWorld = orchestrate cooperativeWorld "15551234567" "15559876543" :=
  ⟨⟨((main_arguments { cooperativeWorld with Args := ["siplink", "-h", "15551234567"] }).1
        "siplink" "-h" ["15551234567"] rfl (Or.inr (Or.inl rfl))).1,
      ((main_arguments { cooperativeWorld with Args := ["siplink", "-h", "15551234567"] }).1
        "siplink" "-h" ["15551234567"] rfl (Or.inr (Or.inl rfl))).2.1⟩,
    (main_arguments { cooperativeWorld with Args := ["siplink", "15551234567"] }).2.1
      (by
        rintro ⟨prog, a, rest, h, ha⟩
        have h2 : a = "15551234567" := by
          have := (List.cons.inj h).2
          exact ((List.cons.inj this).1).symm
        subst h2
        revert ha
        decide)
      (by decide),
    ((main_arguments cooperativeWorld).2.2.1 "siplink" "15551234567" "15559876543" rfl
      (by decide) (by decide) (by decide)).1⟩

end Siplink
